import Mathlib

/-!
Verification of the three MCP tool servers in this repository
(`database_server.py`, `webapi_server.py`, `medical_api_server.py`).

Each server is a flat dispatch layer: a tool name plus an argument mapping is
routed to a handler; the handler performs one external call (a SQLite/MySQL
statement or an outbound HTTP request) and formats the outcome as text.

The embedding below translates each handler and each dispatch function from
the Python source.  External collaborators are modelled as explicit oracles:

* the SQLite engine is a function from the database state and the statement
  text to an engine reply (`SqliteEngine`), with a concrete reference
  interpretation (`ref_sqlite_engine`) for the statements the repository
  itself issues;
* the HTTP client is a function from the outbound request to either a
  response or a raised exception message;
* the `json` library is a pair of functions `loads` / `dumps(indent=2)`
  over an abstract type of parsed documents.

Python string operations that the source uses (`strip`, `upper`, `lower`,
`startswith`, `split`, the substring test `in`) are implemented over
`List Char` so that all definitions evaluate inside the kernel.
-/

/-! ## Python string primitives -/

/-- Python `s.strip()`: remove leading and trailing whitespace. -/
def py_strip (s : String) : String :=
  String.mk (((s.data.dropWhile Char.isWhitespace).reverse.dropWhile Char.isWhitespace).reverse)

/-- Python `s.upper()` (ASCII). -/
def py_upper (s : String) : String := String.mk (s.data.map Char.toUpper)

/-- Python `s.lower()` (ASCII). -/
def py_lower (s : String) : String := String.mk (s.data.map Char.toLower)

/-- Python `s.startswith(pre)`. -/
def py_startswith (s pre : String) : Bool := List.isPrefixOf pre.data s.data

/-- Helper for the Python substring test: does `needle` occur in the list? -/
def str_contains_aux (needle : List Char) : List Char → Bool
  | [] => needle.isEmpty
  | c :: t => needle.isPrefixOf (c :: t) || str_contains_aux needle t

/-- Python `needle in hay` on strings: contiguous substring test. -/
def py_in (needle hay : String) : Bool := str_contains_aux needle.data hay.data

/-- Helper for Python `s.split()`: accumulate the current word (reversed). -/
def split_ws_aux : List Char → List Char → List String
  | [], acc => if acc.isEmpty then [] else [String.mk acc.reverse]
  | c :: cs, acc =>
    if c.isWhitespace then
      if acc.isEmpty then split_ws_aux cs []
      else String.mk acc.reverse :: split_ws_aux cs []
    else split_ws_aux cs (c :: acc)

/-- Python `s.split()` with no argument: split on whitespace, drop empties. -/
def py_split_ws (s : String) : List String := split_ws_aux s.data []

/-- Python `s.replace(" ", "_")` for the single-character pattern used by the
source (symptom normalisation). -/
def py_replace_space_underscore (s : String) : String :=
  String.mk (s.data.map (fun c => if c = ' ' then '_' else c))

/-- Python truthiness of an optional string argument: `None` and `""` are
falsy, every other string is truthy. -/
def py_truthy : Option String → Bool
  | none => false
  | some s => !s.isEmpty

/-- Python truthiness of an optional integer argument: `None` and `0` are
falsy. -/
def py_truthy_int : Option Int → Bool
  | none => false
  | some n => n != 0

/-! ## Python dict operations (string-valued mappings, insertion ordered) -/

/-- Python `d.get(k, dflt)` on a string-keyed dict, represented as an
insertion-ordered association list. -/
def dict_getD (d : List (String × String)) (k dflt : String) : String :=
  match d.find? (fun p => p.1 == k) with
  | some p => p.2
  | none => dflt

/-- Python `d.get(k)`/`d[k]` lookup returning an optional value. -/
def dict_get? (d : List (String × String)) (k : String) : Option String :=
  (d.find? (fun p => p.1 == k)).map (fun p => p.2)

/-- Python `d[k] = v`: replace the value in place if the key is present
(keeping its position), otherwise append the new entry. -/
def dict_set (d : List (String × String)) (k v : String) : List (String × String) :=
  if d.any (fun p => p.1 == k) then d.map (fun p => if p.1 == k then (k, v) else p)
  else d ++ [(k, v)]

/-! ## Shared result and collaborator types -/

/-- One `types.TextContent(type="text", text=...)` payload. -/
structure TextContent where
  type : String
  text : String
deriving DecidableEq

/-- A completed HTTP response as seen through the aiohttp client: status code,
reason phrase, response headers and the body text returned by
`await response.text()`. -/
structure HttpResp where
  status : Nat
  reason : String
  headers : List (String × String)
  body : String
deriving DecidableEq

/-- The `json` standard library, abstracted: `loads` either parses the text
into a document of type `J` or raises `json.JSONDecodeError` with the given
message; `dumps2` is `json.dumps(v, indent=2)`. -/
structure JsonLib where
  J : Type
  loads : String → Except String J
  dumps2 : J → String

/-- A trivial `json` library instance used to evaluate witnesses: every
parse fails with the standard empty-input message. -/
def failJsonLib : JsonLib :=
  { J := Unit
    loads := fun _ => Except.error "Expecting value: line 1 column 1 (char 0)"
    dumps2 := fun _ => "null" }

/-- A trivial `json` library instance whose parses always succeed and whose
pretty-printer is constant; used to evaluate witnesses of the success paths. -/
def okJsonLib : JsonLib :=
  { J := Unit
    loads := fun _ => Except.ok ()
    dumps2 := fun _ => "\x7b\x7d" }

namespace DatabaseServer

/-! ## database_server.py -/

/-- Fixed relative path of the SQLite store (`DB_DIR / "sample.db"`). -/
def SQLITE_DB : String := "databases/sample.db"

/-- One table of the file-backed SQLite store: its name and its rows (each
row a list of stringified column values). -/
structure Table where
  name : String
  rows : List (List String)
deriving DecidableEq

/-- The SQLite database state: the tables in creation order (the order
`sqlite_master` reports them in). -/
abbrev Db := List Table

/-- The reply of the database engine to one executed statement: either a
raised exception message, or the cursor description, fetched rows, rowcount
and the post-statement database state (kept only when the caller commits). -/
structure EngineReply where
  exc : Option String
  cols : List String
  rows : List (List String)
  rowcount : Int
  db : Db
deriving DecidableEq

/-- The SQLite engine, abstracted: database state, statement text and
positional parameters determine the reply. -/
def SqliteEngine := Db → String → List String → EngineReply

/-- The optional MySQL backend: whether `mysql.connector` is importable, and
the outcome of running a statement on the external server (its state is not
modelled; the `db` field of the reply is ignored). -/
structure MysqlLib where
  available : Bool
  run : String → List String → EngineReply

/-- The world a database-server call runs in: the SQLite store plus counters
of how many SQLite / MySQL connections have been opened. -/
structure DbWorld where
  db : Db
  sqlite_conns : Nat
  mysql_conns : Nat
deriving DecidableEq

/-- Classification of a statement by its leading keyword on the sqlite path:
`query.strip().upper().startswith(('SELECT', 'WITH', 'PRAGMA'))`. -/
def read_stmt_sqlite (query : String) : Bool :=
  py_startswith (py_upper (py_strip query)) "SELECT" ||
    py_startswith (py_upper (py_strip query)) "WITH" ||
    py_startswith (py_upper (py_strip query)) "PRAGMA"

/-- Classification on the MySQL path, which additionally recognises
`SHOW` and `DESCRIBE`. -/
def read_stmt_mysql (query : String) : Bool :=
  py_startswith (py_upper (py_strip query)) "SELECT" ||
    py_startswith (py_upper (py_strip query)) "WITH" ||
    py_startswith (py_upper (py_strip query)) "SHOW" ||
    py_startswith (py_upper (py_strip query)) "DESCRIBE"

/-- Row formatting shared by both backends: a `Columns:` header line, a blank
line, then one line per row with values joined by a pipe separator. -/
def rows_text (cols : List String) (rows : List (List String)) : String :=
  "Columns: " ++ String.intercalate ", " cols ++ "\n\n" ++
    String.join (rows.map (fun row => String.intercalate " | " row ++ "\n"))

/-- Translation of `_execute_sqlite_query`: open a fresh connection (counted
in the world), execute the statement through the engine; a raised exception
becomes `SQLite Error: ...`; read statements format fetched rows or report
`No results found`; all other statements commit (the engine reply database is
kept) and report the affected row count. -/
def execute_sqlite_query (eng : SqliteEngine) (w : DbWorld) (query : String)
    (params : List String) : String × DbWorld :=
  let w := { w with sqlite_conns := w.sqlite_conns + 1 }
  let reply := eng w.db query params
  match reply.exc with
  | some e => ("SQLite Error: " ++ e, w)
  | none =>
    if read_stmt_sqlite query then
      if reply.rows.isEmpty then ("No results found", w)
      else (rows_text reply.cols reply.rows, w)
    else
      ("Query executed successfully. Rows affected: " ++ toString reply.rowcount,
        { w with db := reply.db })

/-- Translation of `_execute_mysql_query`: an unavailable connector yields the
install hint without opening a connection; otherwise mirror the sqlite path
against the external server (no commit effect is modelled for it). -/
def execute_mysql_query (my : MysqlLib) (w : DbWorld) (query : String)
    (params : List String) : String × DbWorld :=
  if !my.available then
    ("Error: mysql-connector-python not installed. Run: pip install mysql-connector-python", w)
  else
    let w := { w with mysql_conns := w.mysql_conns + 1 }
    let reply := my.run query params
    match reply.exc with
    | some e => ("MySQL Error: " ++ e, w)
    | none =>
      if read_stmt_mysql query then
        if reply.rows.isEmpty then ("No results found", w)
        else (rows_text reply.cols reply.rows, w)
      else
        ("Query executed successfully. Rows affected: " ++ toString reply.rowcount, w)

/-- Translation of `_execute_query`: reject empty or whitespace-only
statements before any connection is opened, then route on the backend name. -/
def execute_query (eng : SqliteEngine) (my : MysqlLib) (w : DbWorld)
    (query database : String) (params : List String) : String × DbWorld :=
  if (py_strip query).isEmpty then ("Error: Query cannot be empty", w)
  else if database == "sqlite" then execute_sqlite_query eng w query params
  else if database == "mysql" then execute_mysql_query my w query params
  else ("Error: Unsupported database type: " ++ database, w)

/-- Translation of `_list_tables`: a backend-specific introspection statement
executed through the corresponding backend. -/
def list_tables (eng : SqliteEngine) (my : MysqlLib) (w : DbWorld)
    (database : String) : String × DbWorld :=
  if database == "sqlite" then
    execute_sqlite_query eng w "SELECT name FROM sqlite_master WHERE type=\x27table\x27;" []
  else if database == "mysql" then
    execute_mysql_query my w "SHOW TABLES;" []
  else ("Error: Unsupported database type: " ++ database, w)

/-- Translation of `_describe_table`: reject an empty table name, then issue
the backend-specific schema statement (the table name is interpolated into
the statement text, exactly as in the source). -/
def describe_table (eng : SqliteEngine) (my : MysqlLib) (w : DbWorld)
    (table_name database : String) : String × DbWorld :=
  if table_name.isEmpty then ("Error: Table name is required", w)
  else if database == "sqlite" then
    execute_sqlite_query eng w ("PRAGMA table_info(" ++ table_name ++ ");") []
  else if database == "mysql" then
    execute_mysql_query my w ("DESCRIBE " ++ table_name ++ ";") []
  else ("Error: Unsupported database type: " ++ database, w)

/-- Semantics of `DROP TABLE IF EXISTS n`. -/
def drop_table_if_exists (db : Db) (n : String) : Db :=
  db.filter (fun t => t.name != n)

/-- Does the schema already contain the internal `sqlite_sequence` table? -/
def has_sqlite_sequence (db : Db) : Bool :=
  db.any (fun t => t.name == "sqlite_sequence")

/-- Semantics of `CREATE TABLE n (... AUTOINCREMENT ...)` on a state where
`n` is absent: append the new table in creation order, and — as real SQLite
does when the first table with an AUTOINCREMENT column is created — also
create the internal `sqlite_sequence` bookkeeping table if the schema does
not hold it yet.  `sqlite_sequence` has `type = table` in `sqlite_master`, so
it shows up in the table listing; it is never dropped by `DROP TABLE` of an
ordinary table.  Its rows (the per-table sequence counters) are not
modelled: no statement issued by this repository reads them. -/
def create_table_autoinc (db : Db) (n : String) : Db :=
  let db := db ++ [⟨n, []⟩]
  if has_sqlite_sequence db then db else db ++ [⟨"sqlite_sequence", []⟩]

/-- Semantics of `cursor.executemany("INSERT INTO n ...", rows)`: append the
rows to table `n`. -/
def insert_many (db : Db) (n : String) (rs : List (List String)) : Db :=
  db.map (fun t => if t.name == n then ⟨t.name, t.rows ++ rs⟩ else t)

/-- The five seed customer rows of `_init_sqlite_sample_data`. -/
def customers_data : List (List String) :=
  [["John Doe", "john@example.com", "New York"],
   ["Jane Smith", "jane@example.com", "Los Angeles"],
   ["Mike Johnson", "mike@example.com", "Chicago"],
   ["Sarah Williams", "sarah@example.com", "Houston"],
   ["David Brown", "david@example.com", "Phoenix"]]

/-- The five seed product rows. -/
def products_data : List (List String) :=
  [["Laptop", "999.99", "Electronics", "50"],
   ["Smartphone", "699.99", "Electronics", "100"],
   ["Desk Chair", "199.99", "Furniture", "25"],
   ["Coffee Mug", "15.99", "Kitchen", "200"],
   ["Notebook", "5.99", "Stationery", "150"]]

/-- The six seed order rows. -/
def orders_data : List (List String) :=
  [["1", "1", "2"], ["2", "2", "1"], ["3", "3", "5"],
   ["1", "4", "3"], ["4", "1", "1"], ["5", "5", "10"]]

/-- Translation of `_init_sqlite_sample_data`: open a connection, drop the
three sample tables, recreate them (each carries an `id INTEGER PRIMARY KEY
AUTOINCREMENT` column, so the first create also brings the internal
`sqlite_sequence` table into the schema), bulk-insert the seed rows, commit,
and report success with the storage location. -/
def init_sqlite_sample_data (w : DbWorld) : String × DbWorld :=
  let w := { w with sqlite_conns := w.sqlite_conns + 1 }
  let db := w.db
  let db := drop_table_if_exists db "orders"
  let db := drop_table_if_exists db "customers"
  let db := drop_table_if_exists db "products"
  let db := create_table_autoinc db "customers"
  let db := create_table_autoinc db "products"
  let db := create_table_autoinc db "orders"
  let db := insert_many db "customers" customers_data
  let db := insert_many db "products" products_data
  let db := insert_many db "orders" orders_data
  ("SQLite sample data initialized successfully at " ++ SQLITE_DB, { w with db := db })

/-- Translation of `_init_mysql_sample_data`: an explicit stub. -/
def init_mysql_sample_data (w : DbWorld) : String × DbWorld :=
  ("MySQL sample data initialization not implemented yet. Use SQLite for now.", w)

/-- Translation of `_init_sample_data`: route on the backend name. -/
def init_sample_data (w : DbWorld) (database : String) : String × DbWorld :=
  if database == "sqlite" then init_sqlite_sample_data w
  else if database == "mysql" then init_mysql_sample_data w
  else ("Error: Unsupported database type: " ++ database, w)

/-- Reference interpretation of the SQLite engine for the statements the
repository issues against the sample store: the `sqlite_master` table listing
and the customer count query.  Every other statement is reported as outside
the modelled fragment via a raised exception. -/
def ref_sqlite_engine : SqliteEngine := fun db query _params =>
  if query == "SELECT name FROM sqlite_master WHERE type=\x27table\x27;" then
    { exc := none, cols := ["name"], rows := db.map (fun t => [t.name]),
      rowcount := -1, db := db }
  else if query == "SELECT COUNT(*) FROM customers" then
    match db.find? (fun t => t.name == "customers") with
    | some t =>
      { exc := none, cols := ["COUNT(*)"], rows := [[toString t.rows.length]],
        rowcount := -1, db := db }
    | none =>
      { exc := some "no such table: customers", cols := [], rows := [],
        rowcount := -1, db := db }
  else
    { exc := some ("statement outside the modelled fragment: " ++ query),
      cols := [], rows := [], rowcount := -1, db := db }

/-- The argument mapping of a database-server tool call (each key optional,
mirroring `arguments.get`). -/
structure DbArgs where
  query : Option String := none
  database : Option String := none
  params : Option (List String) := none
  table_name : Option String := none
deriving DecidableEq

/-- Body of the `try` block of `handle_call_tool`: route on the tool name;
an unrecognised name raises `ValueError(f"Unknown tool: {name}")`. -/
def handle_call_tool_try (eng : SqliteEngine) (my : MysqlLib) (w : DbWorld)
    (name : String) (a : DbArgs) : Except String (List TextContent × DbWorld) :=
  if name == "execute_query" then
    let r := execute_query eng my w (a.query.getD "") (a.database.getD "sqlite")
      (a.params.getD [])
    .ok ([⟨"text", r.1⟩], r.2)
  else if name == "list_tables" then
    let r := list_tables eng my w (a.database.getD "sqlite")
    .ok ([⟨"text", r.1⟩], r.2)
  else if name == "describe_table" then
    let r := describe_table eng my w (a.table_name.getD "") (a.database.getD "sqlite")
    .ok ([⟨"text", r.1⟩], r.2)
  else if name == "init_sample_data" then
    let r := init_sample_data w (a.database.getD "sqlite")
    .ok ([⟨"text", r.1⟩], r.2)
  else .error ("Unknown tool: " ++ name)

/-- Translation of `handle_call_tool`: an absent argument mapping is treated
as empty; any exception escaping the try block is caught and converted into a
single `Error: ...` text payload. -/
def handle_call_tool (eng : SqliteEngine) (my : MysqlLib) (w : DbWorld)
    (name : String) (args : Option DbArgs) : List TextContent × DbWorld :=
  let a := args.getD {}
  match handle_call_tool_try eng my w name a with
  | .ok r => r
  | .error e => ([⟨"text", "Error: " ++ e⟩], w)

end DatabaseServer

namespace WebAPIServer

/-! ## webapi_server.py -/

/-- A string-keyed mapping (headers, query parameters, form data). -/
abbrev Headers := List (String × String)

/-- One outbound request of the generic HTTP server.  For `POST` and `PUT`
the boolean records whether the data was sent as a JSON body (`json=data`)
or as form data (`data=data`). -/
inductive WebReq
  | get (url : String) (headers : Headers) (params : Headers)
  | post (url : String) (asJson : Bool) (data : Headers) (headers : Headers)
  | put (url : String) (asJson : Bool) (data : Headers) (headers : Headers)
  | delete (url : String) (headers : Headers)
  | head (url : String)
deriving DecidableEq

/-- The shared aiohttp client, abstracted: each request either completes with
a response or raises an exception with the given message. -/
def HttpOracle := WebReq → Except String HttpResp

/-- The three header lines every formatted response starts with: status code,
content type and body length in characters. -/
def response_header (status : Nat) (content_type : String) (len : Nat) : String :=
  "Status: " ++ toString status ++ "\n" ++ "Content-Type: " ++ content_type ++ "\n" ++
    "Response Length: " ++ toString len ++ " characters\n\n"

/-- Translation of `_format_response`: emit the header, then the body —
pretty-printed when the content type indicates JSON (raw text when parsing
fails), otherwise truncated to the first 2000 characters with a marker when
longer than 2000 characters. -/
def format_response (jl : JsonLib) (resp : HttpResp) : String :=
  let content_type := dict_getD resp.headers "content-type" ""
  let text := resp.body
  let result := response_header resp.status content_type text.length
  if py_in "application/json" content_type then
    match jl.loads text with
    | .ok v => result ++ jl.dumps2 v
    | .error _ => result ++ text
  else
    if text.length > 2000 then result ++ (text.take 2000 ++ "\n... (truncated)")
    else result ++ text

/-- Translation of `_get_request`: an empty URL is rejected before any
request is issued; otherwise one GET is sent and the response is formatted
inline (the source repeats the formatter body here). -/
def get_request (jl : JsonLib) (http : HttpOracle) (url : String)
    (headers params : Headers) : String × List WebReq :=
  if url.isEmpty then ("Error: URL is required", [])
  else
    let req := WebReq.get url headers params
    match http req with
    | .error e => ("GET Request Error: " ++ e, [req])
    | .ok resp =>
      let content_type := dict_getD resp.headers "content-type" ""
      let text := resp.body
      let result := response_header resp.status content_type text.length
      if py_in "application/json" content_type then
        match jl.loads text with
        | .ok v => (result ++ jl.dumps2 v, [req])
        | .error _ => (result ++ text, [req])
      else
        if text.length > 2000 then (result ++ (text.take 2000 ++ "\n... (truncated)"), [req])
        else (result ++ text, [req])

/-- Translation of `_post_request`.  With `json_data` true the handler first
writes `Content-Type: application/json` into the caller-supplied headers dict
(an in-place mutation, returned here as the second component); the request
then carries the mutated dict.  With `json_data` false the dict is passed
through untouched. -/
def post_request (jl : JsonLib) (http : HttpOracle) (url : String)
    (data : Headers) (headers : Headers) (json_data : Bool) :
    String × Headers × List WebReq :=
  if url.isEmpty then ("Error: URL is required", headers, [])
  else if json_data then
    let headers := dict_set headers "Content-Type" "application/json"
    let req := WebReq.post url true data headers
    match http req with
    | .error e => ("POST Request Error: " ++ e, headers, [req])
    | .ok resp => (format_response jl resp, headers, [req])
  else
    let req := WebReq.post url false data headers
    match http req with
    | .error e => ("POST Request Error: " ++ e, headers, [req])
    | .ok resp => (format_response jl resp, headers, [req])

/-- Translation of `_put_request`: identical to `_post_request` up to the
HTTP method and the error prefix. -/
def put_request (jl : JsonLib) (http : HttpOracle) (url : String)
    (data : Headers) (headers : Headers) (json_data : Bool) :
    String × Headers × List WebReq :=
  if url.isEmpty then ("Error: URL is required", headers, [])
  else if json_data then
    let headers := dict_set headers "Content-Type" "application/json"
    let req := WebReq.put url true data headers
    match http req with
    | .error e => ("PUT Request Error: " ++ e, headers, [req])
    | .ok resp => (format_response jl resp, headers, [req])
  else
    let req := WebReq.put url false data headers
    match http req with
    | .error e => ("PUT Request Error: " ++ e, headers, [req])
    | .ok resp => (format_response jl resp, headers, [req])

/-- Translation of `_delete_request`. -/
def delete_request (jl : JsonLib) (http : HttpOracle) (url : String)
    (headers : Headers) : String × List WebReq :=
  if url.isEmpty then ("Error: URL is required", [])
  else
    let req := WebReq.delete url headers
    match http req with
    | .error e => ("DELETE Request Error: " ++ e, [req])
    | .ok resp => (format_response jl resp, [req])

/-- Translation of `_fetch_json`: GET the URL, reject a non-200 status with
`Error: HTTP <status>`, parse the body (`await response.json()`); a JSON
decode failure is caught specifically and reported as not valid JSON. -/
def fetch_json (jl : JsonLib) (http : HttpOracle) (url : String)
    (headers : Headers) : String × List WebReq :=
  if url.isEmpty then ("Error: URL is required", [])
  else
    let req := WebReq.get url headers []
    match http req with
    | .error e => ("Fetch JSON Error: " ++ e, [req])
    | .ok resp =>
      if resp.status != 200 then ("Error: HTTP " ++ toString resp.status, [req])
      else
        match jl.loads resp.body with
        | .ok v => (jl.dumps2 v, [req])
        | .error _ => ("Error: Response is not valid JSON", [req])

/-- Translation of `_check_status`: issue one HEAD request and report URL,
status code, reason phrase and the server / content-type / content-length
headers (`Unknown` when absent). -/
def check_status (http : HttpOracle) (url : String) : String × List WebReq :=
  if url.isEmpty then ("Error: URL is required", [])
  else
    let req := WebReq.head url
    match http req with
    | .error e => ("Status Check Error: " ++ e, [req])
    | .ok resp =>
      let hdrs := resp.headers
      ("URL: " ++ url ++ "\n" ++
        ("Status: " ++ toString resp.status ++ "\n") ++
        ("Status Text: " ++ resp.reason ++ "\n") ++
        ("Server: " ++ dict_getD hdrs "server" "Unknown" ++ "\n") ++
        ("Content-Type: " ++ dict_getD hdrs "content-type" "Unknown" ++ "\n") ++
        ("Content-Length: " ++ dict_getD hdrs "content-length" "Unknown" ++ "\n"), [req])

/-- The argument mapping of a webapi-server tool call. -/
structure WebArgs where
  url : Option String := none
  headers : Option Headers := none
  params : Option Headers := none
  data : Option Headers := none
  json_data : Option Bool := none
deriving DecidableEq

/-- Body of the `try` block of the webapi `handle_call_tool`. -/
def handle_call_tool_try (jl : JsonLib) (http : HttpOracle) (name : String)
    (a : WebArgs) : Except String (List TextContent) :=
  if name == "get_request" then
    .ok [⟨"text", (get_request jl http (a.url.getD "") (a.headers.getD []) (a.params.getD [])).1⟩]
  else if name == "post_request" then
    .ok [⟨"text", (post_request jl http (a.url.getD "") (a.data.getD []) (a.headers.getD [])
      (a.json_data.getD true)).1⟩]
  else if name == "put_request" then
    .ok [⟨"text", (put_request jl http (a.url.getD "") (a.data.getD []) (a.headers.getD [])
      (a.json_data.getD true)).1⟩]
  else if name == "delete_request" then
    .ok [⟨"text", (delete_request jl http (a.url.getD "") (a.headers.getD [])).1⟩]
  else if name == "fetch_json" then
    .ok [⟨"text", (fetch_json jl http (a.url.getD "") (a.headers.getD [])).1⟩]
  else if name == "check_status" then
    .ok [⟨"text", (check_status http (a.url.getD "")).1⟩]
  else .error ("Unknown tool: " ++ name)

/-- Translation of the webapi `handle_call_tool`: absent arguments become the
empty mapping; exceptions are caught and flattened into one text payload. -/
def handle_call_tool (jl : JsonLib) (http : HttpOracle) (name : String)
    (args : Option WebArgs) : List TextContent :=
  let a := args.getD {}
  match handle_call_tool_try jl http name a with
  | .ok r => r
  | .error e => [⟨"text", "Error: " ++ e⟩]

end WebAPIServer

namespace MedicalAPIServer

/-! ## medical_api_server.py -/

/-- The JSON body of one of the two POST-style medical tools. -/
inductive MedBody
  | infermedica (sex : String) (age : Int) (evidence : List (String × String))
  | nutrition (query : String)
deriving DecidableEq

/-- One outbound request of the medical server: method, URL, query
parameters (serialised to strings) and headers. -/
inductive MedReq
  | get (url : String) (params : List (String × String)) (headers : List (String × String))
  | post (url : String) (body : MedBody) (headers : List (String × String))
deriving DecidableEq

/-- The shared aiohttp client of the medical server, abstracted. -/
def MedOracle := MedReq → Except String HttpResp

/-- Shared response handling of every medical tool: a raised client exception
is caught under the tool-specific prefix; a 200 response has its body parsed
and pretty-printed (a parse failure is caught under the same prefix); any
other status yields `Error: HTTP <status> - <body>`. -/
def handle_json_response (jl : JsonLib) (errPrefix : String)
    (outcome : Except String HttpResp) : String :=
  match outcome with
  | .error e => errPrefix ++ e
  | .ok resp =>
    if resp.status == 200 then
      match jl.loads resp.body with
      | .ok v => jl.dumps2 v
      | .error e => errPrefix ++ e
    else "Error: HTTP " ++ toString resp.status ++ " - " ++ resp.body

/-- Translation of `_icd11_lookup`: an entity lookup when `entity_id` is
truthy, a search when only `search_term` is, otherwise a missing-parameter
error with no request issued. -/
def icd11_lookup (jl : JsonLib) (http : MedOracle)
    (entity_id search_term : Option String) : String × List MedReq :=
  let base_url := "https://icd11restapi-developer-test.azurewebsites.net"
  if py_truthy entity_id then
    let req := MedReq.get (base_url ++ "/icd/entity/" ++ entity_id.getD "") [] []
    (handle_json_response jl "ICD-11 Lookup Error: " (http req), [req])
  else if py_truthy search_term then
    let req := MedReq.get (base_url ++ "/icd/release/11/2024-01/mms/search")
      [("q", search_term.getD "")] []
    (handle_json_response jl "ICD-11 Lookup Error: " (http req), [req])
  else ("Error: Either entity_id or search_term is required", [])

/-- Translation of `_fda_drug_search`. -/
def fda_drug_search (jl : JsonLib) (http : MedOracle) (search_term : String)
    (limit : Int) : String × List MedReq :=
  if search_term.isEmpty then ("Error: Search term is required", [])
  else
    let req := MedReq.get "https://api.fda.gov/drug/label.json"
      [("search", "openfda.brand_name:" ++ search_term ++
          " OR openfda.generic_name:" ++ search_term),
       ("limit", toString limit)] []
    (handle_json_response jl "FDA Drug Search Error: " (http req), [req])

/-- Translation of `_fda_device_search`. -/
def fda_device_search (jl : JsonLib) (http : MedOracle) (search_term : String)
    (limit : Int) : String × List MedReq :=
  if search_term.isEmpty then ("Error: Search term is required", [])
  else
    let req := MedReq.get "https://api.fda.gov/device/510k.json"
      [("search", "device_name:" ++ search_term), ("limit", toString limit)] []
    (handle_json_response jl "FDA Device Search Error: " (http req), [req])

/-- Translation of `_infermedica_diagnosis`: `all([age, sex, symptoms,
api_key])` is Python truthiness of each element. -/
def infermedica_diagnosis (jl : JsonLib) (http : MedOracle) (age : Option Int)
    (sex : Option String) (symptoms : List String) (api_key : String) :
    String × List MedReq :=
  if !(py_truthy_int age && py_truthy sex && !symptoms.isEmpty && !api_key.isEmpty) then
    ("Error: Age, sex, symptoms, and API key are required", [])
  else
    let headers := [("App-Id", api_key), ("App-Key", api_key),
      ("Content-Type", "application/json")]
    let evidence := symptoms.map
      (fun s => (py_replace_space_underscore (py_lower s), "present"))
    let req := MedReq.post "https://api.infermedica.com/v3/diagnosis"
      (MedBody.infermedica (sex.getD "") (age.getD 0) evidence) headers
    (handle_json_response jl "Infermedica Diagnosis Error: " (http req), [req])

/-- Translation of `_nutrition_facts`. -/
def nutrition_facts (jl : JsonLib) (http : MedOracle)
    (food_query api_key app_id : String) : String × List MedReq :=
  if food_query.isEmpty || api_key.isEmpty || app_id.isEmpty then
    ("Error: Food query, API key, and App ID are required", [])
  else
    let headers := [("x-app-id", app_id), ("x-app-key", api_key),
      ("Content-Type", "application/json")]
    let req := MedReq.post "https://trackapi.nutritionix.com/v2/natural/nutrients"
      (MedBody.nutrition food_query) headers
    (handle_json_response jl "Nutrition Facts Error: " (http req), [req])

/-- Translation of `_npi_provider_lookup`: the parameter dict takes the NPI
number when truthy, else the split provider name, and independently the
state; an empty dict is the missing-parameter error, issued before any
request. -/
def npi_provider_lookup (jl : JsonLib) (http : MedOracle)
    (npi_number provider_name state : Option String) : String × List MedReq :=
  let url := "https://npiregistry.cms.hhs.gov/api/"
  let params : List (String × String) := []
  let params :=
    if py_truthy npi_number then params ++ [("number", npi_number.getD "")]
    else if py_truthy provider_name then
      let name_parts := py_split_ws (provider_name.getD "")
      if name_parts.length >= 2 then
        params ++ [("first_name", name_parts.headD ""),
          ("last_name", String.intercalate " " name_parts.tail)]
      else params ++ [("last_name", provider_name.getD "")]
    else params
  let params := if py_truthy state then params ++ [("state", state.getD "")] else params
  if params.isEmpty then
    ("Error: Either NPI number or provider name is required", [])
  else
    let req := MedReq.get url params []
    (handle_json_response jl "NPI Provider Lookup Error: " (http req), [req])

/-- Translation of `_cms_marketplace_plans`. -/
def cms_marketplace_plans (jl : JsonLib) (http : MedOracle) (zip_code : String)
    (age : Option Int) (api_key : String) : String × List MedReq :=
  if zip_code.isEmpty || api_key.isEmpty then
    ("Error: ZIP code and API key are required", [])
  else
    let headers := [("Authorization", "Bearer " ++ api_key)]
    let params := [("zipcode", zip_code), ("market", "Individual")]
    let params := if py_truthy_int age then params ++ [("age", toString (age.getD 0))]
      else params
    let req := MedReq.get "https://marketplace.api.healthcare.gov/api/v1/plans/search"
      params headers
    (handle_json_response jl "CMS Marketplace Error: " (http req), [req])

/-- Translation of `_covid_stats_global`: no validation, one fixed GET. -/
def covid_stats_global (jl : JsonLib) (http : MedOracle) : String × List MedReq :=
  let req := MedReq.get "https://disease.sh/v3/covid-19/all" [] []
  (handle_json_response jl "COVID Stats Global Error: " (http req), [req])

/-- Translation of `_covid_stats_country`. -/
def covid_stats_country (jl : JsonLib) (http : MedOracle) (country : String) :
    String × List MedReq :=
  if country.isEmpty then ("Error: Country is required", [])
  else
    let req := MedReq.get ("https://disease.sh/v3/covid-19/countries/" ++ country) [] []
    (handle_json_response jl "COVID Stats Country Error: " (http req), [req])

/-- Translation of `_nhs_scotland_data`. -/
def nhs_scotland_data (jl : JsonLib) (http : MedOracle) (resource_id : String)
    (query : Option String) : String × List MedReq :=
  if resource_id.isEmpty then ("Error: Resource ID is required", [])
  else
    let params := [("resource_id", resource_id)]
    let params := if py_truthy query then params ++ [("q", query.getD "")] else params
    let req := MedReq.get "https://www.opendata.nhs.scot/api/3/action/datastore_search"
      params []
    (handle_json_response jl "NHS Scotland Data Error: " (http req), [req])

/-- The argument mapping of a medical-server tool call. -/
structure MedArgs where
  entity_id : Option String := none
  search_term : Option String := none
  limit : Option Int := none
  age : Option Int := none
  sex : Option String := none
  symptoms : Option (List String) := none
  api_key : Option String := none
  food_query : Option String := none
  app_id : Option String := none
  npi_number : Option String := none
  provider_name : Option String := none
  state : Option String := none
  zip_code : Option String := none
  country : Option String := none
  resource_id : Option String := none
  query : Option String := none
deriving DecidableEq

/-- Body of the `try` block of the medical `handle_call_tool`. -/
def handle_call_tool_try (jl : JsonLib) (http : MedOracle) (name : String)
    (a : MedArgs) : Except String (List TextContent) :=
  if name == "icd11_lookup" then
    .ok [⟨"text", (icd11_lookup jl http a.entity_id a.search_term).1⟩]
  else if name == "fda_drug_search" then
    .ok [⟨"text", (fda_drug_search jl http (a.search_term.getD "") (a.limit.getD 5)).1⟩]
  else if name == "fda_device_search" then
    .ok [⟨"text", (fda_device_search jl http (a.search_term.getD "") (a.limit.getD 5)).1⟩]
  else if name == "infermedica_diagnosis" then
    .ok [⟨"text", (infermedica_diagnosis jl http a.age a.sex (a.symptoms.getD [])
      (a.api_key.getD "")).1⟩]
  else if name == "nutrition_facts" then
    .ok [⟨"text", (nutrition_facts jl http (a.food_query.getD "") (a.api_key.getD "")
      (a.app_id.getD "")).1⟩]
  else if name == "npi_provider_lookup" then
    .ok [⟨"text", (npi_provider_lookup jl http a.npi_number a.provider_name a.state).1⟩]
  else if name == "cms_marketplace_plans" then
    .ok [⟨"text", (cms_marketplace_plans jl http (a.zip_code.getD "") a.age
      (a.api_key.getD "")).1⟩]
  else if name == "covid_stats_global" then
    .ok [⟨"text", (covid_stats_global jl http).1⟩]
  else if name == "covid_stats_country" then
    .ok [⟨"text", (covid_stats_country jl http (a.country.getD "")).1⟩]
  else if name == "nhs_scotland_data" then
    .ok [⟨"text", (nhs_scotland_data jl http (a.resource_id.getD "") a.query).1⟩]
  else .error ("Unknown tool: " ++ name)

/-- Translation of the medical `handle_call_tool`. -/
def handle_call_tool (jl : JsonLib) (http : MedOracle) (name : String)
    (args : Option MedArgs) : List TextContent :=
  let a := args.getD {}
  match handle_call_tool_try jl http name a with
  | .ok r => r
  | .error e => [⟨"text", "Error: " ++ e⟩]

end MedicalAPIServer

/-! ## Concrete fixtures used to evaluate witnesses -/

/-- A concrete SQLite engine for witnesses: every statement succeeds with two
fetched rows over one column. -/
def witness_engine : DatabaseServer.SqliteEngine :=
  fun db _ _ => ⟨none, ["id"], [["1"], ["2"]], -1, db⟩

/-- A concrete MySQL library state for witnesses: the connector is not
installed. -/
def witness_mysql : DatabaseServer.MysqlLib :=
  ⟨false, fun _ _ => ⟨none, [], [], 0, []⟩⟩

/-- The fresh database world: empty store, no connections opened yet. -/
def world0 : DatabaseServer.DbWorld := ⟨[], 0, 0⟩

/-- A webapi HTTP client whose every request raises. -/
def http_fail : WebAPIServer.HttpOracle := fun _ => .error "boom"

/-- A medical-server HTTP client whose every request raises. -/
def med_fail : MedicalAPIServer.MedOracle := fun _ => .error "boom"

/-- The 3000-character non-JSON body of the C6 witness. -/
def body3000 : String := String.mk (List.replicate 3000 'x')

/-- A 3000-character plain-text response. -/
def resp3000 : HttpResp := ⟨200, "OK", [("content-type", "text/plain")], body3000⟩

/-- A small JSON response. -/
def respJson : HttpResp := ⟨200, "OK", [("content-type", "application/json")], "[1, 2]"⟩

/-- A concrete 201 Created response: a 2xx success status that is not 200. -/
def resp201 : HttpResp := ⟨201, "Created", [], "created"⟩

/-- A medical-server HTTP client that answers every request with 201. -/
def med201 : MedicalAPIServer.MedOracle := fun _ => .ok resp201

/-- A concrete 200 JSON response. -/
def resp200 : HttpResp := ⟨200, "OK", [("content-type", "application/json")], "[1]"⟩

/-- A medical-server HTTP client that answers every request with a 200 JSON
response. -/
def med200 : MedicalAPIServer.MedOracle := fun _ => .ok resp200

/-- The per-tool contract of a domain-API handler call whose validation
passed: the call issued exactly the one given outbound request; a completed
response with status exactly 200 has its body parsed and pretty-printed;
every other status yields the `Error: HTTP <status> - <body>` text. -/
def med_tool_contract (jl : JsonLib) (http : MedicalAPIServer.MedOracle)
    (r : String × List MedicalAPIServer.MedReq)
    (req : MedicalAPIServer.MedReq) : Prop :=
  r.2 = [req] ∧
  (∀ resp v, http req = Except.ok resp → resp.status = 200 →
    jl.loads resp.body = Except.ok v → r.1 = jl.dumps2 v) ∧
  (∀ resp, http req = Except.ok resp → resp.status ≠ 200 →
    r.1 = "Error: HTTP " ++ toString resp.status ++ " - " ++ resp.body)

/-- The tables that survive the three DROP statements of
init_sqlite_sample_data: everything not named customers, products or
orders. -/
def sample_survivors (l : DatabaseServer.Db) : DatabaseServer.Db :=
  ((l.filter (fun t => t.name != "orders")).filter
    (fun t => t.name != "customers")).filter (fun t => t.name != "products")

/-! ## Helper lemmas -/

/-- String concatenation is associative (needed to regroup formatted text). -/
theorem str_append_assoc (a b c : String) : (a ++ b) ++ c = a ++ (b ++ c) := by
  simp [String.ext_iff, String.data_append, List.append_assoc]

/-- Auxiliary step for `dict_get?_dict_set`: replacing the value of a present
key makes the first match the replaced entry. -/
theorem find?_dict_set_aux (k v : String) (d : List (String × String))
    (h : d.any (fun p => p.1 == k) = true) :
    (d.map (fun p => if p.1 == k then (k, v) else p)).find? (fun p => p.1 == k)
      = some (k, v) := by
  induction d with
  | nil => simp at h
  | cons p t ih =>
    by_cases hp : (p.1 == k) = true
    · simp only [List.map_cons, hp, if_true]
      rw [List.find?_cons_of_pos]
      simp
    · have hp' : (p.1 == k) = false := by
        cases hh : p.1 == k
        · rfl
        · exact absurd hh hp
      simp only [List.any_cons, hp', Bool.false_or] at h
      simp only [List.map_cons, hp', Bool.false_eq_true, if_false]
      rw [List.find?_cons_of_neg]
      · exact ih h
      · simp [hp']

/-- Setting a key in a Python dict makes the subsequent lookup return the new
value, overriding any previous entry for that key. -/
theorem dict_get?_dict_set (d : List (String × String)) (k v : String) :
    dict_get? (dict_set d k v) k = some v := by
  unfold dict_set dict_get?
  by_cases h : d.any (fun p => p.1 == k) = true
  · simp only [h, if_true]
    rw [find?_dict_set_aux k v d h]
    rfl
  · have h' : (d.any fun p => p.1 == k) = false := by
      cases hh : (d.any fun p => p.1 == k)
      · rfl
      · exact absurd hh h
    simp only [h', Bool.false_eq_true, if_false]
    rw [List.find?_append]
    have hnone : d.find? (fun p => p.1 == k) = none := by
      rw [List.find?_eq_none]
      intro x hx
      rw [List.any_eq_false] at h'
      simpa using h' x hx
    simp [hnone, List.find?]

/-! ## C2 -/

/-- C2: a call of execute_query with an empty or whitespace-only query, of
describe_table with an empty table name, or of any URL-taking webapi tool
with an empty URL returns the descriptive error and performs no external
call: the database world (including its connection counters) is returned
unchanged and the list of issued HTTP requests is empty. -/
theorem c2_missing_params_error_without_external_call
    (eng : DatabaseServer.SqliteEngine) (my : DatabaseServer.MysqlLib)
    (w : DatabaseServer.DbWorld) (query database : String)
    (params : List String) (hq : py_strip query = "")
    (jl : JsonLib) (http : WebAPIServer.HttpOracle)
    (hs ps dt : WebAPIServer.Headers) (jd : Bool) :
    DatabaseServer.execute_query eng my w query database params
      = ("Error: Query cannot be empty", w) ∧
    DatabaseServer.describe_table eng my w "" database
      = ("Error: Table name is required", w) ∧
    WebAPIServer.get_request jl http "" hs ps = ("Error: URL is required", []) ∧
    WebAPIServer.fetch_json jl http "" hs = ("Error: URL is required", []) ∧
    WebAPIServer.post_request jl http "" dt hs jd = ("Error: URL is required", hs, []) ∧
    WebAPIServer.put_request jl http "" dt hs jd = ("Error: URL is required", hs, []) ∧
    WebAPIServer.delete_request jl http "" hs = ("Error: URL is required", []) ∧
    WebAPIServer.check_status http "" = ("Error: URL is required", []) := by
  refine ⟨?_, ?_, ?_, ?_, ?_, ?_, ?_, ?_⟩
  · unfold DatabaseServer.execute_query
    rw [hq]
    rfl
  · rfl
  · rfl
  · rfl
  · rfl
  · rfl
  · rfl
  · rfl

/-- Witness for C2 at concrete inputs (a whitespace-only query). -/
theorem c2_witness :
    DatabaseServer.execute_query witness_engine witness_mysql world0 "   " "sqlite" []
      = ("Error: Query cannot be empty", world0) ∧
    DatabaseServer.describe_table witness_engine witness_mysql world0 "" "sqlite"
      = ("Error: Table name is required", world0) ∧
    WebAPIServer.get_request failJsonLib http_fail "" [] []
      = ("Error: URL is required", []) ∧
    WebAPIServer.fetch_json failJsonLib http_fail "" []
      = ("Error: URL is required", []) ∧
    WebAPIServer.post_request failJsonLib http_fail "" [] [] true
      = ("Error: URL is required", [], []) ∧
    WebAPIServer.put_request failJsonLib http_fail "" [] [] true
      = ("Error: URL is required", [], []) ∧
    WebAPIServer.delete_request failJsonLib http_fail "" []
      = ("Error: URL is required", []) ∧
    WebAPIServer.check_status http_fail ""
      = ("Error: URL is required", []) :=
  c2_missing_params_error_without_external_call witness_engine witness_mysql world0
    "   " "sqlite" [] (by decide) failJsonLib http_fail [] [] [] true

/-! ## C3 -/

/-- C3: on the sqlite backend, a non-empty statement that the engine executes
without raising is classified by its leading keyword: a statement whose
stripped upper-cased text starts with SELECT, WITH or PRAGMA yields the
column-header line followed by one pipe-separated line per row (or the string
`No results found` when no rows were fetched); every other statement commits
the engine state and reports the affected row count. -/
theorem c3_sqlite_keyword_classification
    (eng : DatabaseServer.SqliteEngine) (my : DatabaseServer.MysqlLib)
    (w : DatabaseServer.DbWorld) (query : String) (params : List String)
    (hq : py_strip query ≠ "")
    (hexc : (eng w.db query params).exc = none) :
    (DatabaseServer.read_stmt_sqlite query = true →
      ((eng w.db query params).rows = [] →
        (DatabaseServer.execute_query eng my w query "sqlite" params).1
          = "No results found") ∧
      ((eng w.db query params).rows ≠ [] →
        (DatabaseServer.execute_query eng my w query "sqlite" params).1
          = "Columns: " ++ String.intercalate ", " (eng w.db query params).cols ++ "\n\n" ++
              String.join ((eng w.db query params).rows.map
                (fun row => String.intercalate " | " row ++ "\n")))) ∧
    (DatabaseServer.read_stmt_sqlite query = false →
      (DatabaseServer.execute_query eng my w query "sqlite" params).1
        = "Query executed successfully. Rows affected: "
            ++ toString (eng w.db query params).rowcount ∧
      (DatabaseServer.execute_query eng my w query "sqlite" params).2.db
        = (eng w.db query params).db) := by
  have hne : (py_strip query).isEmpty = false := by
    cases hh : (py_strip query).isEmpty
    · rfl
    · exact absurd ((String.isEmpty_iff _).mp hh) hq
  unfold DatabaseServer.execute_query DatabaseServer.execute_sqlite_query
  simp only [hne, Bool.false_eq_true, if_false, beq_self_eq_true, if_true]
  simp only [hexc]
  constructor
  · intro hread
    simp only [hread, if_true]
    constructor
    · intro hrows
      simp [hrows]
    · intro hrows
      have : (eng w.db query params).rows.isEmpty = false := by
        cases hh : (eng w.db query params).rows.isEmpty
        · rfl
        · exact absurd (List.isEmpty_iff.mp hh) hrows
      simp [this, DatabaseServer.rows_text]
  · intro hread
    simp [hread]

/-- Witness for C3: a concrete read statement against the witness engine. -/
theorem c3_witness :
    (DatabaseServer.read_stmt_sqlite "select id from t" = true →
      ((witness_engine world0.db "select id from t" []).rows = [] →
        (DatabaseServer.execute_query witness_engine witness_mysql world0
          "select id from t" "sqlite" []).1 = "No results found") ∧
      ((witness_engine world0.db "select id from t" []).rows ≠ [] →
        (DatabaseServer.execute_query witness_engine witness_mysql world0
          "select id from t" "sqlite" []).1
          = "Columns: " ++ String.intercalate ", "
              (witness_engine world0.db "select id from t" []).cols ++ "\n\n" ++
              String.join ((witness_engine world0.db "select id from t" []).rows.map
                (fun row => String.intercalate " | " row ++ "\n")))) ∧
    (DatabaseServer.read_stmt_sqlite "select id from t" = false →
      (DatabaseServer.execute_query witness_engine witness_mysql world0
        "select id from t" "sqlite" []).1
        = "Query executed successfully. Rows affected: "
            ++ toString (witness_engine world0.db "select id from t" []).rowcount ∧
      (DatabaseServer.execute_query witness_engine witness_mysql world0
        "select id from t" "sqlite" []).2.db
        = (witness_engine world0.db "select id from t" []).db) :=
  c3_sqlite_keyword_classification witness_engine witness_mysql world0
    "select id from t" [] (by decide) rfl

/-! ## C6 -/

/-- C6: the Response Formatter emits the status / content-type / length
header followed by the body: for JSON content types the parsed body is
re-emitted pretty-printed, falling back to the raw text when parsing fails;
for other content types a body longer than 2000 characters is cut to its
first 2000 characters plus the truncation marker, and a body of at most 2000
characters is passed through unchanged. -/
theorem c6_format_response_cases (jl : JsonLib) (resp : HttpResp) :
    (py_in "application/json" (dict_getD resp.headers "content-type" "") = true →
      (∀ v, jl.loads resp.body = .ok v →
        WebAPIServer.format_response jl resp
          = WebAPIServer.response_header resp.status
              (dict_getD resp.headers "content-type" "") resp.body.length ++ jl.dumps2 v) ∧
      (∀ e, jl.loads resp.body = .error e →
        WebAPIServer.format_response jl resp
          = WebAPIServer.response_header resp.status
              (dict_getD resp.headers "content-type" "") resp.body.length ++ resp.body)) ∧
    (py_in "application/json" (dict_getD resp.headers "content-type" "") = false →
      (resp.body.length > 2000 →
        WebAPIServer.format_response jl resp
          = WebAPIServer.response_header resp.status
              (dict_getD resp.headers "content-type" "") resp.body.length
              ++ (resp.body.take 2000 ++ "\n... (truncated)")) ∧
      (resp.body.length ≤ 2000 →
        WebAPIServer.format_response jl resp
          = WebAPIServer.response_header resp.status
              (dict_getD resp.headers "content-type" "") resp.body.length ++ resp.body)) := by
  unfold WebAPIServer.format_response
  constructor
  · intro hct
    simp only [hct, if_true]
    constructor
    · intro v hv
      simp [hv]
    · intro e he
      simp [he]
  · intro hct
    simp only [hct, Bool.false_eq_true, if_false]
    constructor
    · intro hlen
      simp [hlen]
    · intro hlen
      have hno : ¬ (resp.body.length > 2000) := by omega
      simp [hno]

/-- Witness for C6: the 3000-character body is truncated, and a JSON body is
re-emitted through the pretty-printer. -/
theorem c6_witness :
    WebAPIServer.format_response failJsonLib resp3000
      = WebAPIServer.response_header resp3000.status
          (dict_getD resp3000.headers "content-type" "") resp3000.body.length
          ++ (resp3000.body.take 2000 ++ "\n... (truncated)") ∧
    WebAPIServer.format_response okJsonLib respJson
      = WebAPIServer.response_header respJson.status
          (dict_getD respJson.headers "content-type" "") respJson.body.length
          ++ okJsonLib.dumps2 () :=
  ⟨((c6_format_response_cases failJsonLib resp3000).2 (by decide)).1
      (by
        have h : resp3000.body.length = 3000 := by
          rw [show resp3000.body.length = (List.replicate 3000 'x').length from rfl,
            List.length_replicate]
        omega),
    ((c6_format_response_cases okJsonLib respJson).1 (by decide)).1 () rfl⟩

/-! ## C8 -/

/-- C8: a check_status call with a non-empty URL whose HEAD request completes
with status 404 does not raise, issues exactly that one HEAD request, and
returns the report whose lines carry the URL, the status 404, the reason
phrase and the server / content-type / content-length headers; in particular
the text `Status: 404` followed by a newline occurs in the report. -/
theorem c8_check_status_404 (http : WebAPIServer.HttpOracle) (url : String)
    (resp : HttpResp) (hu : url ≠ "")
    (hr : http (WebAPIServer.WebReq.head url) = .ok resp)
    (hs : resp.status = 404) :
    WebAPIServer.check_status http url =
      ("URL: " ++ url ++ "\n" ++
        ("Status: " ++ toString resp.status ++ "\n") ++
        ("Status Text: " ++ resp.reason ++ "\n") ++
        ("Server: " ++ dict_getD resp.headers "server" "Unknown" ++ "\n") ++
        ("Content-Type: " ++ dict_getD resp.headers "content-type" "Unknown" ++ "\n") ++
        ("Content-Length: " ++ dict_getD resp.headers "content-length" "Unknown" ++ "\n"),
        [WebAPIServer.WebReq.head url]) ∧
    List.IsInfix "Status: 404\n".data (WebAPIServer.check_status http url).1.data := by
  have hne : url.isEmpty = false := by
    cases hh : url.isEmpty
    · rfl
    · exact absurd ((String.isEmpty_iff _).mp hh) hu
  have heq : WebAPIServer.check_status http url =
      ("URL: " ++ url ++ "\n" ++
        ("Status: " ++ toString resp.status ++ "\n") ++
        ("Status Text: " ++ resp.reason ++ "\n") ++
        ("Server: " ++ dict_getD resp.headers "server" "Unknown" ++ "\n") ++
        ("Content-Type: " ++ dict_getD resp.headers "content-type" "Unknown" ++ "\n") ++
        ("Content-Length: " ++ dict_getD resp.headers "content-length" "Unknown" ++ "\n"),
        [WebAPIServer.WebReq.head url]) := by
    unfold WebAPIServer.check_status
    simp only [hne, Bool.false_eq_true, if_false, hr]
  refine ⟨heq, ?_⟩
  rw [heq, hs]
  have h404 : toString (404 : Nat) = "404" := by decide
  rw [h404]
  refine ⟨"URL: ".data ++ url.data ++ "\n".data,
    "Status Text: ".data ++ resp.reason.data ++ "\n".data ++
      "Server: ".data ++ (dict_getD resp.headers "server" "Unknown").data ++ "\n".data ++
      "Content-Type: ".data ++ (dict_getD resp.headers "content-type" "Unknown").data ++
      "\n".data ++
      "Content-Length: ".data ++ (dict_getD resp.headers "content-length" "Unknown").data ++
      "\n".data, ?_⟩
  simp [String.data_append, List.append_assoc]

/-- Witness for C8 at a concrete URL and a concrete 404 response. -/
theorem c8_witness :
    WebAPIServer.check_status
      (fun _ => .ok ⟨404, "Not Found", [("server", "nginx")], ""⟩) "https://example.com/x" =
      ("URL: " ++ "https://example.com/x" ++ "\n" ++
        ("Status: " ++ toString (404 : Nat) ++ "\n") ++
        ("Status Text: " ++ "Not Found" ++ "\n") ++
        ("Server: " ++ "nginx" ++ "\n") ++
        ("Content-Type: " ++ "Unknown" ++ "\n") ++
        ("Content-Length: " ++ "Unknown" ++ "\n"),
        [WebAPIServer.WebReq.head "https://example.com/x"]) ∧
    List.IsInfix "Status: 404\n".data
      (WebAPIServer.check_status
        (fun _ => .ok ⟨404, "Not Found", [("server", "nginx")], ""⟩)
        "https://example.com/x").1.data :=
  c8_check_status_404 (fun _ => .ok ⟨404, "Not Found", [("server", "nginx")], ""⟩)
    "https://example.com/x" ⟨404, "Not Found", [("server", "nginx")], ""⟩
    (by decide) rfl rfl

/-! ## C9 -/

/-- C9: with json_data true, post_request and put_request write the entry
`Content-Type: application/json` into the caller-supplied headers mapping
before sending — the mapping the caller passed is mutated and any previous
Content-Type value is overridden, and the request carries the mutated
mapping; with json_data false the mapping is passed through unchanged. -/
theorem c9_post_put_content_type_mutation (jl : JsonLib)
    (http : WebAPIServer.HttpOracle) (url : String)
    (dt hs : WebAPIServer.Headers) (hu : url ≠ "") :
    (WebAPIServer.post_request jl http url dt hs true).2.1
      = dict_set hs "Content-Type" "application/json" ∧
    (WebAPIServer.post_request jl http url dt hs true).2.2
      = [WebAPIServer.WebReq.post url true dt (dict_set hs "Content-Type" "application/json")] ∧
    dict_get? (WebAPIServer.post_request jl http url dt hs true).2.1 "Content-Type"
      = some "application/json" ∧
    (WebAPIServer.post_request jl http url dt hs false).2.1 = hs ∧
    (WebAPIServer.post_request jl http url dt hs false).2.2
      = [WebAPIServer.WebReq.post url false dt hs] ∧
    (WebAPIServer.put_request jl http url dt hs true).2.1
      = dict_set hs "Content-Type" "application/json" ∧
    (WebAPIServer.put_request jl http url dt hs true).2.2
      = [WebAPIServer.WebReq.put url true dt (dict_set hs "Content-Type" "application/json")] ∧
    dict_get? (WebAPIServer.put_request jl http url dt hs true).2.1 "Content-Type"
      = some "application/json" ∧
    (WebAPIServer.put_request jl http url dt hs false).2.1 = hs ∧
    (WebAPIServer.put_request jl http url dt hs false).2.2
      = [WebAPIServer.WebReq.put url false dt hs] := by
  have hne : url.isEmpty = false := by
    cases hh : url.isEmpty
    · rfl
    · exact absurd ((String.isEmpty_iff _).mp hh) hu
  have hpostT : (WebAPIServer.post_request jl http url dt hs true).2.1
      = dict_set hs "Content-Type" "application/json" := by
    unfold WebAPIServer.post_request
    simp only [hne, Bool.false_eq_true, if_false, if_true]
    cases http (WebAPIServer.WebReq.post url true dt
        (dict_set hs "Content-Type" "application/json")) <;> rfl
  have hputT : (WebAPIServer.put_request jl http url dt hs true).2.1
      = dict_set hs "Content-Type" "application/json" := by
    unfold WebAPIServer.put_request
    simp only [hne, Bool.false_eq_true, if_false, if_true]
    cases http (WebAPIServer.WebReq.put url true dt
        (dict_set hs "Content-Type" "application/json")) <;> rfl
  refine ⟨hpostT, ?_, ?_, ?_, ?_, hputT, ?_, ?_, ?_, ?_⟩
  · unfold WebAPIServer.post_request
    simp only [hne, Bool.false_eq_true, if_false, if_true]
    cases http (WebAPIServer.WebReq.post url true dt
        (dict_set hs "Content-Type" "application/json")) <;> rfl
  · rw [hpostT]
    exact dict_get?_dict_set hs "Content-Type" "application/json"
  · unfold WebAPIServer.post_request
    simp only [hne, Bool.false_eq_true, if_false]
    cases http (WebAPIServer.WebReq.post url false dt hs) <;> rfl
  · unfold WebAPIServer.post_request
    simp only [hne, Bool.false_eq_true, if_false]
    cases http (WebAPIServer.WebReq.post url false dt hs) <;> rfl
  · unfold WebAPIServer.put_request
    simp only [hne, Bool.false_eq_true, if_false, if_true]
    cases http (WebAPIServer.WebReq.put url true dt
        (dict_set hs "Content-Type" "application/json")) <;> rfl
  · rw [hputT]
    exact dict_get?_dict_set hs "Content-Type" "application/json"
  · unfold WebAPIServer.put_request
    simp only [hne, Bool.false_eq_true, if_false]
    cases http (WebAPIServer.WebReq.put url false dt hs) <;> rfl
  · unfold WebAPIServer.put_request
    simp only [hne, Bool.false_eq_true, if_false]
    cases http (WebAPIServer.WebReq.put url false dt hs) <;> rfl

/-- Witness for C9: a caller-supplied mapping whose Content-Type is
overridden. -/
theorem c9_witness :
    (WebAPIServer.post_request failJsonLib http_fail "http://h" []
        [("Content-Type", "text/xml")] true).2.1
      = dict_set [("Content-Type", "text/xml")] "Content-Type" "application/json" ∧
    (WebAPIServer.post_request failJsonLib http_fail "http://h" []
        [("Content-Type", "text/xml")] true).2.2
      = [WebAPIServer.WebReq.post "http://h" true []
          (dict_set [("Content-Type", "text/xml")] "Content-Type" "application/json")] ∧
    dict_get? (WebAPIServer.post_request failJsonLib http_fail "http://h" []
        [("Content-Type", "text/xml")] true).2.1 "Content-Type"
      = some "application/json" ∧
    (WebAPIServer.post_request failJsonLib http_fail "http://h" []
        [("Content-Type", "text/xml")] false).2.1 = [("Content-Type", "text/xml")] ∧
    (WebAPIServer.post_request failJsonLib http_fail "http://h" []
        [("Content-Type", "text/xml")] false).2.2
      = [WebAPIServer.WebReq.post "http://h" false [] [("Content-Type", "text/xml")]] ∧
    (WebAPIServer.put_request failJsonLib http_fail "http://h" []
        [("Content-Type", "text/xml")] true).2.1
      = dict_set [("Content-Type", "text/xml")] "Content-Type" "application/json" ∧
    (WebAPIServer.put_request failJsonLib http_fail "http://h" []
        [("Content-Type", "text/xml")] true).2.2
      = [WebAPIServer.WebReq.put "http://h" true []
          (dict_set [("Content-Type", "text/xml")] "Content-Type" "application/json")] ∧
    dict_get? (WebAPIServer.put_request failJsonLib http_fail "http://h" []
        [("Content-Type", "text/xml")] true).2.1 "Content-Type"
      = some "application/json" ∧
    (WebAPIServer.put_request failJsonLib http_fail "http://h" []
        [("Content-Type", "text/xml")] false).2.1 = [("Content-Type", "text/xml")] ∧
    (WebAPIServer.put_request failJsonLib http_fail "http://h" []
        [("Content-Type", "text/xml")] false).2.2
      = [WebAPIServer.WebReq.put "http://h" false [] [("Content-Type", "text/xml")]] :=
  c9_post_put_content_type_mutation failJsonLib http_fail "http://h" []
    [("Content-Type", "text/xml")] (by decide)

/-! ## C7 -/

/-- Counterexample to C7 as stated: on a 201 response — a successful 2xx
status — fda_drug_search returns the string `Error: HTTP 201 - created`
rather than the pretty-printed body, because the code treats only the exact
status 200 as success. -/
theorem c7_counterexample :
    (MedicalAPIServer.fda_drug_search okJsonLib med201 "aspirin" 5).1
      = "Error: HTTP 201 - created"
      ∧ 200 ≤ resp201.status ∧ resp201.status < 300 := by
  refine ⟨?_, by decide, by decide⟩
  rfl

/-- Shared response handling of the medical tools on a 200 response whose
body parses: the pretty-printed document. -/
theorem hjr_200 (jl : JsonLib) (p : String) (resp : HttpResp) (v : jl.J)
    (h200 : resp.status = 200) (hv : jl.loads resp.body = .ok v) :
    MedicalAPIServer.handle_json_response jl p (.ok resp) = jl.dumps2 v := by
  unfold MedicalAPIServer.handle_json_response
  simp [h200, hv]

/-- Shared response handling of the medical tools on any non-200 status:
the HTTP error text. -/
theorem hjr_non200 (jl : JsonLib) (p : String) (resp : HttpResp)
    (h200 : resp.status ≠ 200) :
    MedicalAPIServer.handle_json_response jl p (.ok resp)
      = "Error: HTTP " ++ toString resp.status ++ " - " ++ resp.body := by
  have h200x : (resp.status == 200) = false := by
    cases hh : resp.status == 200
    · rfl
    · exact absurd (by simpa using hh) h200
  unfold MedicalAPIServer.handle_json_response
  simp [h200x]

/-- A handler call that reduces to the shared response pipeline on one
request satisfies the per-tool contract. -/
theorem med_contract_of_eq (jl : JsonLib) (http : MedicalAPIServer.MedOracle)
    (p : String) (req : MedicalAPIServer.MedReq)
    (r : String × List MedicalAPIServer.MedReq)
    (h : r = (MedicalAPIServer.handle_json_response jl p (http req), [req])) :
    med_tool_contract jl http r req := by
  subst h
  refine ⟨rfl, ?_, ?_⟩
  · intro resp v hr h200 hv
    show MedicalAPIServer.handle_json_response jl p (http req) = jl.dumps2 v
    rw [hr]
    exact hjr_200 jl p resp v h200 hv
  · intro resp hr h200
    show MedicalAPIServer.handle_json_response jl p (http req)
        = "Error: HTTP " ++ toString resp.status ++ " - " ++ resp.body
    rw [hr]
    exact hjr_non200 jl p resp h200

/-- C7 (amended): every domain-API handler whose validation passes issues
exactly one outbound HTTP request; it returns the pretty-printed JSON body
when the response status is exactly 200, and `Error: HTTP <status> - <body>`
for every other status (including the remaining 2xx statuses).  One conjunct
per passing branch of each of the ten tools. -/
theorem c7_amended_all_tools_status200 (jl : JsonLib)
    (http : MedicalAPIServer.MedOracle)
    (entity_id search_term : Option String)
    (drug_term : String) (drug_limit : Int)
    (device_term : String) (device_limit : Int)
    (age : Option Int) (sex : Option String) (symptoms : List String) (api_key : String)
    (n_food n_key n_app : String)
    (npi pn st : Option String)
    (zip_code : String) (cms_age : Option Int) (cms_key : String)
    (country : String)
    (resource_id : String) (nhs_query : Option String) :
    (py_truthy entity_id = true →
      med_tool_contract jl http
        (MedicalAPIServer.icd11_lookup jl http entity_id search_term)
        (MedicalAPIServer.MedReq.get
          ("https://icd11restapi-developer-test.azurewebsites.net"
            ++ "/icd/entity/" ++ entity_id.getD "") [] [])) ∧
    (py_truthy entity_id = false → py_truthy search_term = true →
      med_tool_contract jl http
        (MedicalAPIServer.icd11_lookup jl http entity_id search_term)
        (MedicalAPIServer.MedReq.get
          ("https://icd11restapi-developer-test.azurewebsites.net"
            ++ "/icd/release/11/2024-01/mms/search")
          [("q", search_term.getD "")] [])) ∧
    (drug_term ≠ "" →
      med_tool_contract jl http
        (MedicalAPIServer.fda_drug_search jl http drug_term drug_limit)
        (MedicalAPIServer.MedReq.get "https://api.fda.gov/drug/label.json"
          [("search", "openfda.brand_name:" ++ drug_term
              ++ " OR openfda.generic_name:" ++ drug_term),
           ("limit", toString drug_limit)] [])) ∧
    (device_term ≠ "" →
      med_tool_contract jl http
        (MedicalAPIServer.fda_device_search jl http device_term device_limit)
        (MedicalAPIServer.MedReq.get "https://api.fda.gov/device/510k.json"
          [("search", "device_name:" ++ device_term),
           ("limit", toString device_limit)] [])) ∧
    (py_truthy_int age = true → py_truthy sex = true →
      symptoms.isEmpty = false → api_key.isEmpty = false →
      med_tool_contract jl http
        (MedicalAPIServer.infermedica_diagnosis jl http age sex symptoms api_key)
        (MedicalAPIServer.MedReq.post "https://api.infermedica.com/v3/diagnosis"
          (MedicalAPIServer.MedBody.infermedica (sex.getD "") (age.getD 0)
            (symptoms.map (fun s => (py_replace_space_underscore (py_lower s), "present"))))
          [("App-Id", api_key), ("App-Key", api_key),
           ("Content-Type", "application/json")])) ∧
    (n_food.isEmpty = false → n_key.isEmpty = false → n_app.isEmpty = false →
      med_tool_contract jl http
        (MedicalAPIServer.nutrition_facts jl http n_food n_key n_app)
        (MedicalAPIServer.MedReq.post "https://trackapi.nutritionix.com/v2/natural/nutrients"
          (MedicalAPIServer.MedBody.nutrition n_food)
          [("x-app-id", n_app), ("x-app-key", n_key),
           ("Content-Type", "application/json")])) ∧
    (py_truthy npi = true →
      med_tool_contract jl http
        (MedicalAPIServer.npi_provider_lookup jl http npi pn st)
        (MedicalAPIServer.MedReq.get "https://npiregistry.cms.hhs.gov/api/"
          ([("number", npi.getD "")]
            ++ (if py_truthy st = true then [("state", st.getD "")] else [])) [])) ∧
    (py_truthy npi = false → py_truthy pn = true →
      med_tool_contract jl http
        (MedicalAPIServer.npi_provider_lookup jl http npi pn st)
        (MedicalAPIServer.MedReq.get "https://npiregistry.cms.hhs.gov/api/"
          ((if 2 ≤ (py_split_ws (pn.getD "")).length
            then [("first_name", (py_split_ws (pn.getD "")).headD ""),
                  ("last_name", String.intercalate " " (py_split_ws (pn.getD "")).tail)]
            else [("last_name", pn.getD "")])
            ++ (if py_truthy st = true then [("state", st.getD "")] else [])) [])) ∧
    (py_truthy npi = false → py_truthy pn = false → py_truthy st = true →
      med_tool_contract jl http
        (MedicalAPIServer.npi_provider_lookup jl http npi pn st)
        (MedicalAPIServer.MedReq.get "https://npiregistry.cms.hhs.gov/api/"
          [("state", st.getD "")] [])) ∧
    (zip_code.isEmpty = false → cms_key.isEmpty = false →
      med_tool_contract jl http
        (MedicalAPIServer.cms_marketplace_plans jl http zip_code cms_age cms_key)
        (MedicalAPIServer.MedReq.get
          "https://marketplace.api.healthcare.gov/api/v1/plans/search"
          ([("zipcode", zip_code), ("market", "Individual")]
            ++ (if py_truthy_int cms_age = true
                then [("age", toString (cms_age.getD 0))] else []))
          [("Authorization", "Bearer " ++ cms_key)])) ∧
    med_tool_contract jl http (MedicalAPIServer.covid_stats_global jl http)
      (MedicalAPIServer.MedReq.get "https://disease.sh/v3/covid-19/all" [] []) ∧
    (country ≠ "" →
      med_tool_contract jl http
        (MedicalAPIServer.covid_stats_country jl http country)
        (MedicalAPIServer.MedReq.get
          ("https://disease.sh/v3/covid-19/countries/" ++ country) [] [])) ∧
    (resource_id ≠ "" →
      med_tool_contract jl http
        (MedicalAPIServer.nhs_scotland_data jl http resource_id nhs_query)
        (MedicalAPIServer.MedReq.get
          "https://www.opendata.nhs.scot/api/3/action/datastore_search"
          ([("resource_id", resource_id)]
            ++ (if py_truthy nhs_query = true then [("q", nhs_query.getD "")] else []))
          [])) := by
  refine ⟨?_, ?_, ?_, ?_, ?_, ?_, ?_, ?_, ?_, ?_, ?_, ?_, ?_⟩
  · intro h1
    exact med_contract_of_eq _ _ _ _ _ (by
      unfold MedicalAPIServer.icd11_lookup
      rw [if_pos h1])
  · intro h1 h2
    exact med_contract_of_eq _ _ _ _ _ (by
      unfold MedicalAPIServer.icd11_lookup
      rw [if_neg (by simp [h1]), if_pos h2])
  · intro hst
    have hne : drug_term.isEmpty = false := by
      cases hh : drug_term.isEmpty
      · rfl
      · exact absurd ((String.isEmpty_iff _).mp hh) hst
    exact med_contract_of_eq _ _ _ _ _ (by
      unfold MedicalAPIServer.fda_drug_search
      rw [if_neg (by simp [hne])])
  · intro hst
    have hne : device_term.isEmpty = false := by
      cases hh : device_term.isEmpty
      · rfl
      · exact absurd ((String.isEmpty_iff _).mp hh) hst
    exact med_contract_of_eq _ _ _ _ _ (by
      unfold MedicalAPIServer.fda_device_search
      rw [if_neg (by simp [hne])])
  · intro h1 h2 h3 h4
    have hval : (py_truthy_int age && py_truthy sex
        && !symptoms.isEmpty && !api_key.isEmpty) = true := by
      rw [h1, h2, h3, h4]
      rfl
    exact med_contract_of_eq _ _ _ _ _ (by
      unfold MedicalAPIServer.infermedica_diagnosis
      rw [if_neg (by simp [hval])])
  · intro h1 h2 h3
    exact med_contract_of_eq _ _ _ _ _ (by
      unfold MedicalAPIServer.nutrition_facts
      rw [if_neg (by simp [h1, h2, h3])])
  · intro h1
    apply med_contract_of_eq _ _ "NPI Provider Lookup Error: " _ _
    cases hst : py_truthy st <;>
      simp [MedicalAPIServer.npi_provider_lookup, h1, hst]
  · intro h1 h2
    apply med_contract_of_eq _ _ "NPI Provider Lookup Error: " _ _
    cases hst : py_truthy st <;>
      simp only [MedicalAPIServer.npi_provider_lookup, h1, h2, hst, if_true, if_false,
        Bool.false_eq_true, Bool.true_eq_false, List.nil_append] <;>
      split <;> simp
  · intro h1 h2 h3
    apply med_contract_of_eq _ _ "NPI Provider Lookup Error: " _ _
    simp [MedicalAPIServer.npi_provider_lookup, h1, h2, h3]
  · intro h1 h2
    apply med_contract_of_eq _ _ "CMS Marketplace Error: " _ _
    cases hage : py_truthy_int cms_age <;>
      simp [MedicalAPIServer.cms_marketplace_plans, h1, h2, hage]
  · exact med_contract_of_eq _ _ _ _ _ rfl
  · intro hst
    have hne : country.isEmpty = false := by
      cases hh : country.isEmpty
      · rfl
      · exact absurd ((String.isEmpty_iff _).mp hh) hst
    exact med_contract_of_eq _ _ _ _ _ (by
      unfold MedicalAPIServer.covid_stats_country
      rw [if_neg (by simp [hne])])
  · intro hst
    have hne : resource_id.isEmpty = false := by
      cases hh : resource_id.isEmpty
      · rfl
      · exact absurd ((String.isEmpty_iff _).mp hh) hst
    apply med_contract_of_eq _ _ "NHS Scotland Data Error: " _ _
    cases hq : py_truthy nhs_query <;>
      simp [MedicalAPIServer.nhs_scotland_data, hne, hq]

/-- Witness for the amended C7 at concrete inputs: a 200 request round-trip
for fda_drug_search and npi_provider_lookup, the request shape of
nhs_scotland_data, and a non-200 error for covid_stats_global. -/
theorem c7_witness :
    (MedicalAPIServer.fda_drug_search okJsonLib med200 "aspirin" 5).2
      = [MedicalAPIServer.MedReq.get "https://api.fda.gov/drug/label.json"
          [("search", "openfda.brand_name:" ++ "aspirin"
              ++ " OR openfda.generic_name:" ++ "aspirin"),
           ("limit", toString (5 : Int))] []] ∧
    (MedicalAPIServer.fda_drug_search okJsonLib med200 "aspirin" 5).1
      = okJsonLib.dumps2 () ∧
    (MedicalAPIServer.covid_stats_global okJsonLib med201).1
      = "Error: HTTP " ++ toString resp201.status ++ " - " ++ resp201.body ∧
    (MedicalAPIServer.nhs_scotland_data okJsonLib med200 "res-1" none).2
      = [MedicalAPIServer.MedReq.get
          "https://www.opendata.nhs.scot/api/3/action/datastore_search"
          [("resource_id", "res-1")] []] ∧
    (MedicalAPIServer.npi_provider_lookup okJsonLib med200 none none (some "CA")).1
      = okJsonLib.dumps2 () := by
  have h1 := c7_amended_all_tools_status200 okJsonLib med200 none none
    "aspirin" 5 "pacemaker" 5 none none [] "" "rice" "k" "a" none none (some "CA")
    "90210" none "k" "USA" "res-1" none
  have h2 := c7_amended_all_tools_status200 okJsonLib med201 none none
    "aspirin" 5 "pacemaker" 5 none none [] "" "rice" "k" "a" none none (some "CA")
    "90210" none "k" "USA" "res-1" none
  refine ⟨?_, ?_, ?_, ?_, ?_⟩
  · exact (h1.2.2.1 (by decide)).1
  · exact (h1.2.2.1 (by decide)).2.1 resp200 () rfl rfl rfl
  · exact (h2.2.2.2.2.2.2.2.2.2.2.1).2.2 resp201 rfl (by decide)
  · exact (h1.2.2.2.2.2.2.2.2.2.2.2.2 (by decide)).1
  · exact (h1.2.2.2.2.2.2.2.2.1 rfl rfl (by decide)).2.1 resp200 () rfl rfl rfl

/-! ## C10 -/

/-- C10: npi_provider_lookup returns the missing-parameter error exactly when
npi_number, provider_name and state are all absent (in the Python sense:
missing or empty); a truthy state alone yields one request whose sole query
parameter is the state; and a truthy npi_number makes the request parameters
independent of provider_name — the number (plus optionally the state), with
no name parameters. -/
theorem c10_npi_lookup_param_precedence (jl : JsonLib)
    (http : MedicalAPIServer.MedOracle) (npi pn st : Option String) :
    (MedicalAPIServer.npi_provider_lookup jl http npi pn st
        = ("Error: Either NPI number or provider name is required", [])
      ↔ (py_truthy npi = false ∧ py_truthy pn = false ∧ py_truthy st = false)) ∧
    (py_truthy npi = false → py_truthy pn = false → py_truthy st = true →
      (MedicalAPIServer.npi_provider_lookup jl http npi pn st).2
        = [MedicalAPIServer.MedReq.get "https://npiregistry.cms.hhs.gov/api/"
            [("state", st.getD "")] []]) ∧
    (py_truthy npi = true →
      (MedicalAPIServer.npi_provider_lookup jl http npi pn st).2
        = [MedicalAPIServer.MedReq.get "https://npiregistry.cms.hhs.gov/api/"
            ([("number", npi.getD "")]
              ++ (if py_truthy st = true then [("state", st.getD "")] else [])) []]) := by
  refine ⟨?_, ?_, ?_⟩
  · cases hnpi : py_truthy npi <;> cases hpn : py_truthy pn <;> cases hst : py_truthy st <;>
      simp only [MedicalAPIServer.npi_provider_lookup, hnpi, hpn, hst, if_true, if_false,
        Bool.false_eq_true, Bool.true_eq_false, List.nil_append] <;>
      (try split) <;> simp_all
  · intro h1 h2 h3
    simp [MedicalAPIServer.npi_provider_lookup, h1, h2, h3]
  · intro h1
    cases hst : py_truthy st <;>
      simp [MedicalAPIServer.npi_provider_lookup, h1, hst]

/-- Witness for C10: all-absent yields the error; state alone yields a
state-only request; a supplied NPI number overrides a supplied provider
name. -/
theorem c10_witness :
    MedicalAPIServer.npi_provider_lookup failJsonLib med_fail none none none
      = ("Error: Either NPI number or provider name is required", []) ∧
    (MedicalAPIServer.npi_provider_lookup failJsonLib med_fail none none (some "CA")).2
      = [MedicalAPIServer.MedReq.get "https://npiregistry.cms.hhs.gov/api/"
          [("state", "CA")] []] ∧
    (MedicalAPIServer.npi_provider_lookup failJsonLib med_fail
        (some "123") (some "Jo Kim") none).2
      = [MedicalAPIServer.MedReq.get "https://npiregistry.cms.hhs.gov/api/"
          [("number", "123")] []] :=
  ⟨(c10_npi_lookup_param_precedence failJsonLib med_fail none none none).1.mpr
      ⟨rfl, rfl, rfl⟩,
    (c10_npi_lookup_param_precedence failJsonLib med_fail none none (some "CA")).2.1
      rfl rfl (by decide),
    (c10_npi_lookup_param_precedence failJsonLib med_fail
        (some "123") (some "Jo Kim") none).2.2 (by decide)⟩

/-! ## C1 -/

/-- Unfolding equation of the database-server dispatch. -/
theorem db_handle_eq (eng : DatabaseServer.SqliteEngine) (my : DatabaseServer.MysqlLib)
    (w : DatabaseServer.DbWorld) (name : String) (args : Option DatabaseServer.DbArgs) :
    DatabaseServer.handle_call_tool eng my w name args =
      match DatabaseServer.handle_call_tool_try eng my w name (args.getD {}) with
      | .ok r => r
      | .error e => ([⟨"text", "Error: " ++ e⟩], w) := rfl

/-- Unfolding equation of the webapi-server dispatch. -/
theorem web_handle_eq (jl : JsonLib) (http : WebAPIServer.HttpOracle)
    (name : String) (args : Option WebAPIServer.WebArgs) :
    WebAPIServer.handle_call_tool jl http name args =
      match WebAPIServer.handle_call_tool_try jl http name (args.getD {}) with
      | .ok r => r
      | .error e => [⟨"text", "Error: " ++ e⟩] := rfl

/-- Unfolding equation of the medical-server dispatch. -/
theorem med_handle_eq (jl : JsonLib) (http : MedicalAPIServer.MedOracle)
    (name : String) (args : Option MedicalAPIServer.MedArgs) :
    MedicalAPIServer.handle_call_tool jl http name args =
      match MedicalAPIServer.handle_call_tool_try jl http name (args.getD {}) with
      | .ok r => r
      | .error e => [⟨"text", "Error: " ++ e⟩] := rfl

/-- Shape of the database-server try block: every recognised tool returns one
text payload, every other name raises the unknown-tool ValueError. -/
theorem db_try_shape (eng : DatabaseServer.SqliteEngine) (my : DatabaseServer.MysqlLib)
    (w : DatabaseServer.DbWorld) (name : String) (a : DatabaseServer.DbArgs) :
    (∃ s w2, DatabaseServer.handle_call_tool_try eng my w name a = .ok ([⟨"text", s⟩], w2)) ∨
      DatabaseServer.handle_call_tool_try eng my w name a
        = .error ("Unknown tool: " ++ name) := by
  delta DatabaseServer.handle_call_tool_try
  by_cases h1 : (name == "execute_query") = true
  · rw [if_pos h1]; exact .inl ⟨_, _, rfl⟩
  rw [if_neg h1]
  by_cases h2 : (name == "list_tables") = true
  · rw [if_pos h2]; exact .inl ⟨_, _, rfl⟩
  rw [if_neg h2]
  by_cases h3 : (name == "describe_table") = true
  · rw [if_pos h3]; exact .inl ⟨_, _, rfl⟩
  rw [if_neg h3]
  by_cases h4 : (name == "init_sample_data") = true
  · rw [if_pos h4]; exact .inl ⟨_, _, rfl⟩
  rw [if_neg h4]
  exact .inr rfl

/-- Shape of the webapi-server try block. -/
theorem web_try_shape (jl : JsonLib) (http : WebAPIServer.HttpOracle)
    (name : String) (a : WebAPIServer.WebArgs) :
    (∃ s, WebAPIServer.handle_call_tool_try jl http name a = .ok [⟨"text", s⟩]) ∨
      WebAPIServer.handle_call_tool_try jl http name a
        = .error ("Unknown tool: " ++ name) := by
  delta WebAPIServer.handle_call_tool_try
  by_cases h1 : (name == "get_request") = true
  · rw [if_pos h1]; exact .inl ⟨_, rfl⟩
  rw [if_neg h1]
  by_cases h2 : (name == "post_request") = true
  · rw [if_pos h2]; exact .inl ⟨_, rfl⟩
  rw [if_neg h2]
  by_cases h3 : (name == "put_request") = true
  · rw [if_pos h3]; exact .inl ⟨_, rfl⟩
  rw [if_neg h3]
  by_cases h4 : (name == "delete_request") = true
  · rw [if_pos h4]; exact .inl ⟨_, rfl⟩
  rw [if_neg h4]
  by_cases h5 : (name == "fetch_json") = true
  · rw [if_pos h5]; exact .inl ⟨_, rfl⟩
  rw [if_neg h5]
  by_cases h6 : (name == "check_status") = true
  · rw [if_pos h6]; exact .inl ⟨_, rfl⟩
  rw [if_neg h6]
  exact .inr rfl

/-- Shape of the medical-server try block. -/
theorem med_try_shape (jl : JsonLib) (http : MedicalAPIServer.MedOracle)
    (name : String) (a : MedicalAPIServer.MedArgs) :
    (∃ s, MedicalAPIServer.handle_call_tool_try jl http name a = .ok [⟨"text", s⟩]) ∨
      MedicalAPIServer.handle_call_tool_try jl http name a
        = .error ("Unknown tool: " ++ name) := by
  delta MedicalAPIServer.handle_call_tool_try
  by_cases h1 : (name == "icd11_lookup") = true
  · rw [if_pos h1]; exact .inl ⟨_, rfl⟩
  rw [if_neg h1]
  by_cases h2 : (name == "fda_drug_search") = true
  · rw [if_pos h2]; exact .inl ⟨_, rfl⟩
  rw [if_neg h2]
  by_cases h3 : (name == "fda_device_search") = true
  · rw [if_pos h3]; exact .inl ⟨_, rfl⟩
  rw [if_neg h3]
  by_cases h4 : (name == "infermedica_diagnosis") = true
  · rw [if_pos h4]; exact .inl ⟨_, rfl⟩
  rw [if_neg h4]
  by_cases h5 : (name == "nutrition_facts") = true
  · rw [if_pos h5]; exact .inl ⟨_, rfl⟩
  rw [if_neg h5]
  by_cases h6 : (name == "npi_provider_lookup") = true
  · rw [if_pos h6]; exact .inl ⟨_, rfl⟩
  rw [if_neg h6]
  by_cases h7 : (name == "cms_marketplace_plans") = true
  · rw [if_pos h7]; exact .inl ⟨_, rfl⟩
  rw [if_neg h7]
  by_cases h8 : (name == "covid_stats_global") = true
  · rw [if_pos h8]; exact .inl ⟨_, rfl⟩
  rw [if_neg h8]
  by_cases h9 : (name == "covid_stats_country") = true
  · rw [if_pos h9]; exact .inl ⟨_, rfl⟩
  rw [if_neg h9]
  by_cases h10 : (name == "nhs_scotland_data") = true
  · rw [if_pos h10]; exact .inl ⟨_, rfl⟩
  rw [if_neg h10]
  exact .inr rfl

/-- The database-server try block on an unrecognised name raises the
unknown-tool ValueError. -/
theorem db_try_unknown (eng : DatabaseServer.SqliteEngine) (my : DatabaseServer.MysqlLib)
    (w : DatabaseServer.DbWorld) (name : String) (a : DatabaseServer.DbArgs)
    (h1 : name ≠ "execute_query") (h2 : name ≠ "list_tables")
    (h3 : name ≠ "describe_table") (h4 : name ≠ "init_sample_data") :
    DatabaseServer.handle_call_tool_try eng my w name a
      = .error ("Unknown tool: " ++ name) := by
  delta DatabaseServer.handle_call_tool_try
  rw [if_neg (by simp only [beq_iff_eq]; exact h1)]
  rw [if_neg (by simp only [beq_iff_eq]; exact h2)]
  rw [if_neg (by simp only [beq_iff_eq]; exact h3)]
  rw [if_neg (by simp only [beq_iff_eq]; exact h4)]

/-- The webapi-server try block on an unrecognised name raises the
unknown-tool ValueError. -/
theorem web_try_unknown (jl : JsonLib) (http : WebAPIServer.HttpOracle)
    (name : String) (a : WebAPIServer.WebArgs)
    (h1 : name ≠ "get_request") (h2 : name ≠ "post_request")
    (h3 : name ≠ "put_request") (h4 : name ≠ "delete_request")
    (h5 : name ≠ "fetch_json") (h6 : name ≠ "check_status") :
    WebAPIServer.handle_call_tool_try jl http name a
      = .error ("Unknown tool: " ++ name) := by
  delta WebAPIServer.handle_call_tool_try
  rw [if_neg (by simp only [beq_iff_eq]; exact h1)]
  rw [if_neg (by simp only [beq_iff_eq]; exact h2)]
  rw [if_neg (by simp only [beq_iff_eq]; exact h3)]
  rw [if_neg (by simp only [beq_iff_eq]; exact h4)]
  rw [if_neg (by simp only [beq_iff_eq]; exact h5)]
  rw [if_neg (by simp only [beq_iff_eq]; exact h6)]

/-- The medical-server try block on an unrecognised name raises the
unknown-tool ValueError. -/
theorem med_try_unknown (jl : JsonLib) (http : MedicalAPIServer.MedOracle)
    (name : String) (a : MedicalAPIServer.MedArgs)
    (h1 : name ≠ "icd11_lookup") (h2 : name ≠ "fda_drug_search")
    (h3 : name ≠ "fda_device_search") (h4 : name ≠ "infermedica_diagnosis")
    (h5 : name ≠ "nutrition_facts") (h6 : name ≠ "npi_provider_lookup")
    (h7 : name ≠ "cms_marketplace_plans") (h8 : name ≠ "covid_stats_global")
    (h9 : name ≠ "covid_stats_country") (h10 : name ≠ "nhs_scotland_data") :
    MedicalAPIServer.handle_call_tool_try jl http name a
      = .error ("Unknown tool: " ++ name) := by
  delta MedicalAPIServer.handle_call_tool_try
  rw [if_neg (by simp only [beq_iff_eq]; exact h1)]
  rw [if_neg (by simp only [beq_iff_eq]; exact h2)]
  rw [if_neg (by simp only [beq_iff_eq]; exact h3)]
  rw [if_neg (by simp only [beq_iff_eq]; exact h4)]
  rw [if_neg (by simp only [beq_iff_eq]; exact h5)]
  rw [if_neg (by simp only [beq_iff_eq]; exact h6)]
  rw [if_neg (by simp only [beq_iff_eq]; exact h7)]
  rw [if_neg (by simp only [beq_iff_eq]; exact h8)]
  rw [if_neg (by simp only [beq_iff_eq]; exact h9)]
  rw [if_neg (by simp only [beq_iff_eq]; exact h10)]

/-- Folding of the error prefix over the unknown-tool message. -/
theorem error_unknown_append (s : String) :
    "Error: " ++ ("Unknown tool: " ++ s) = "Error: Unknown tool: " ++ s := by
  rw [← str_append_assoc]
  exact congrArg (fun p => p ++ s) (by decide)

/-- C1: on each of the three servers, dispatch of any tool name with any
(possibly absent) argument mapping returns exactly one text payload and
never propagates an exception; a name outside the registry of the respective
server yields the text `Error: Unknown tool: <name>`; and any exception
escaping the try block is converted into the text `Error: <message>`. -/
theorem c1_dispatch_total_unknown_caught (name : String)
    (eng : DatabaseServer.SqliteEngine) (my : DatabaseServer.MysqlLib)
    (w : DatabaseServer.DbWorld) (dargs : Option DatabaseServer.DbArgs)
    (jl : JsonLib) (whttp : WebAPIServer.HttpOracle) (wargs : Option WebAPIServer.WebArgs)
    (mhttp : MedicalAPIServer.MedOracle) (margs : Option MedicalAPIServer.MedArgs) :
    (∃ s, (DatabaseServer.handle_call_tool eng my w name dargs).1 = [⟨"text", s⟩]) ∧
    (∃ s, WebAPIServer.handle_call_tool jl whttp name wargs = [⟨"text", s⟩]) ∧
    (∃ s, MedicalAPIServer.handle_call_tool jl mhttp name margs = [⟨"text", s⟩]) ∧
    (name ∉ (["execute_query", "list_tables", "describe_table", "init_sample_data"] :
        List String) →
      (DatabaseServer.handle_call_tool eng my w name dargs).1
        = [⟨"text", "Error: Unknown tool: " ++ name⟩]) ∧
    (name ∉ (["get_request", "post_request", "put_request", "delete_request",
        "fetch_json", "check_status"] : List String) →
      WebAPIServer.handle_call_tool jl whttp name wargs
        = [⟨"text", "Error: Unknown tool: " ++ name⟩]) ∧
    (name ∉ (["icd11_lookup", "fda_drug_search", "fda_device_search",
        "infermedica_diagnosis", "nutrition_facts", "npi_provider_lookup",
        "cms_marketplace_plans", "covid_stats_global", "covid_stats_country",
        "nhs_scotland_data"] : List String) →
      MedicalAPIServer.handle_call_tool jl mhttp name margs
        = [⟨"text", "Error: Unknown tool: " ++ name⟩]) ∧
    (∀ e a, DatabaseServer.handle_call_tool_try eng my w name a = .error e →
      (DatabaseServer.handle_call_tool eng my w name (some a)).1
        = [⟨"text", "Error: " ++ e⟩]) ∧
    (∀ e a, WebAPIServer.handle_call_tool_try jl whttp name a = .error e →
      WebAPIServer.handle_call_tool jl whttp name (some a) = [⟨"text", "Error: " ++ e⟩]) ∧
    (∀ e a, MedicalAPIServer.handle_call_tool_try jl mhttp name a = .error e →
      MedicalAPIServer.handle_call_tool jl mhttp name (some a)
        = [⟨"text", "Error: " ++ e⟩]) := by
  refine ⟨?_, ?_, ?_, ?_, ?_, ?_, ?_, ?_, ?_⟩
  · rcases db_try_shape eng my w name (dargs.getD {}) with ⟨s, w2, hok⟩ | herr
    · exact ⟨s, by rw [db_handle_eq, hok]⟩
    · exact ⟨"Error: " ++ ("Unknown tool: " ++ name), by rw [db_handle_eq, herr]⟩
  · rcases web_try_shape jl whttp name (wargs.getD {}) with ⟨s, hok⟩ | herr
    · exact ⟨s, by rw [web_handle_eq, hok]⟩
    · exact ⟨"Error: " ++ ("Unknown tool: " ++ name), by rw [web_handle_eq, herr]⟩
  · rcases med_try_shape jl mhttp name (margs.getD {}) with ⟨s, hok⟩ | herr
    · exact ⟨s, by rw [med_handle_eq, hok]⟩
    · exact ⟨"Error: " ++ ("Unknown tool: " ++ name), by rw [med_handle_eq, herr]⟩
  · intro h
    simp only [List.mem_cons, List.not_mem_nil, or_false, not_or] at h
    obtain ⟨h1, h2, h3, h4⟩ := h
    rw [db_handle_eq, db_try_unknown eng my w name _ h1 h2 h3 h4]
    exact congrArg (fun t => [TextContent.mk "text" t]) (error_unknown_append name)
  · intro h
    simp only [List.mem_cons, List.not_mem_nil, or_false, not_or] at h
    obtain ⟨h1, h2, h3, h4, h5, h6⟩ := h
    rw [web_handle_eq, web_try_unknown jl whttp name _ h1 h2 h3 h4 h5 h6]
    exact congrArg (fun t => [TextContent.mk "text" t]) (error_unknown_append name)
  · intro h
    simp only [List.mem_cons, List.not_mem_nil, or_false, not_or] at h
    obtain ⟨h1, h2, h3, h4, h5, h6, h7, h8, h9, h10⟩ := h
    rw [med_handle_eq, med_try_unknown jl mhttp name _ h1 h2 h3 h4 h5 h6 h7 h8 h9 h10]
    exact congrArg (fun t => [TextContent.mk "text" t]) (error_unknown_append name)
  · intro e a hE
    rw [db_handle_eq]
    simp only [Option.getD_some]
    rw [hE]
  · intro e a hE
    rw [web_handle_eq]
    simp only [Option.getD_some]
    rw [hE]
  · intro e a hE
    rw [med_handle_eq]
    simp only [Option.getD_some]
    rw [hE]

theorem c1_witness :
    (DatabaseServer.handle_call_tool witness_engine witness_mysql world0
        "frobnicate" none).1
      = [⟨"text", "Error: Unknown tool: frobnicate"⟩] ∧
    WebAPIServer.handle_call_tool failJsonLib http_fail "frobnicate" none
      = [⟨"text", "Error: Unknown tool: frobnicate"⟩] ∧
    MedicalAPIServer.handle_call_tool failJsonLib med_fail "frobnicate" none
      = [⟨"text", "Error: Unknown tool: frobnicate"⟩] :=
  ⟨(c1_dispatch_total_unknown_caught "frobnicate" witness_engine witness_mysql world0
      none failJsonLib http_fail none med_fail none).2.2.2.1 (by decide),
    (c1_dispatch_total_unknown_caught "frobnicate" witness_engine witness_mysql world0
      none failJsonLib http_fail none med_fail none).2.2.2.2.1 (by decide),
    (c1_dispatch_total_unknown_caught "frobnicate" witness_engine witness_mysql world0
      none failJsonLib http_fail none med_fail none).2.2.2.2.2.1 (by decide)⟩

/-! ## C4 and C5 -/

/-- Surviving tables carry none of the three sample-table names. -/
theorem sample_survivors_names (l : DatabaseServer.Db) :
    ∀ t ∈ sample_survivors l, (t.name == "customers") = false ∧
      (t.name == "products") = false ∧ (t.name == "orders") = false := by
  intro t ht
  simp only [sample_survivors, List.mem_filter] at ht
  obtain ⟨⟨⟨_, ho⟩, hc⟩, hp⟩ := ht
  exact ⟨beq_eq_false_iff_ne.mpr (bne_iff_ne.mp hc),
    beq_eq_false_iff_ne.mpr (bne_iff_ne.mp hp),
    beq_eq_false_iff_ne.mpr (bne_iff_ne.mp ho)⟩

/-- Inserting into a table that does not occur in the state leaves the state
unchanged. -/
theorem insert_many_skip (n : String) (rs : List (List String)) :
    ∀ l : DatabaseServer.Db, (∀ t ∈ l, (t.name == n) = false) →
      DatabaseServer.insert_many l n rs = l := by
  intro l
  induction l with
  | nil => intro _; rfl
  | cons a t ih =>
    intro h
    have ha := h a (List.mem_cons_self a t)
    have ht := ih (fun x hx => h x (List.mem_cons_of_mem a hx))
    unfold DatabaseServer.insert_many at ht ⊢
    simp only [List.map_cons, ha, Bool.false_eq_true, if_false]
    rw [ht]

/-- insert_many distributes over concatenated states. -/
theorem insert_many_append (l1 l2 : DatabaseServer.Db) (n : String)
    (rs : List (List String)) :
    DatabaseServer.insert_many (l1 ++ l2) n rs
      = DatabaseServer.insert_many l1 n rs ++ DatabaseServer.insert_many l2 n rs := by
  unfold DatabaseServer.insert_many
  exact List.map_append _ l1 l2

/-- has_sqlite_sequence distributes over concatenated states. -/
theorem has_seq_append (l1 l2 : DatabaseServer.Db) :
    DatabaseServer.has_sqlite_sequence (l1 ++ l2)
      = (DatabaseServer.has_sqlite_sequence l1 || DatabaseServer.has_sqlite_sequence l2) := by
  unfold DatabaseServer.has_sqlite_sequence
  simp [List.any_append]

/-- A state extended with the sqlite_sequence table holds it. -/
theorem has_seq_append_seq (db : DatabaseServer.Db) :
    DatabaseServer.has_sqlite_sequence (db ++ [⟨"sqlite_sequence", []⟩]) = true := by
  rw [has_seq_append]
  simp [DatabaseServer.has_sqlite_sequence]

/-- Creating a table while sqlite_sequence is already in the schema only
appends the new table. -/
theorem create_autoinc_seq_present (db : DatabaseServer.Db) (n : String)
    (h : DatabaseServer.has_sqlite_sequence db = true) :
    DatabaseServer.create_table_autoinc db n = db ++ [⟨n, []⟩] := by
  have hc : DatabaseServer.has_sqlite_sequence (db ++ [⟨n, []⟩]) = true := by
    rw [has_seq_append, h]
    rfl
  unfold DatabaseServer.create_table_autoinc
  rw [if_pos hc]

/-- Creating a table while sqlite_sequence is absent also brings
sqlite_sequence into the schema, right after the new table. -/
theorem create_autoinc_seq_absent (db : DatabaseServer.Db) (n : String)
    (hn : (n == "sqlite_sequence") = false)
    (h : DatabaseServer.has_sqlite_sequence db = false) :
    DatabaseServer.create_table_autoinc db n
      = db ++ [⟨n, []⟩] ++ [⟨"sqlite_sequence", []⟩] := by
  have hc : DatabaseServer.has_sqlite_sequence (db ++ [⟨n, []⟩]) = false := by
    rw [has_seq_append, h]
    simp [DatabaseServer.has_sqlite_sequence, hn]
  unfold DatabaseServer.create_table_autoinc
  rw [if_neg (by simp [hc])]

/-- Unfolding of the init_sqlite_sample_data store pipeline: three drops,
three AUTOINCREMENT creates, three bulk inserts. -/
theorem init_db_unfold (w : DatabaseServer.DbWorld) :
    (DatabaseServer.init_sqlite_sample_data w).2.db
      = DatabaseServer.insert_many (DatabaseServer.insert_many (DatabaseServer.insert_many
          (DatabaseServer.create_table_autoinc (DatabaseServer.create_table_autoinc
            (DatabaseServer.create_table_autoinc (sample_survivors w.db)
              "customers") "products") "orders")
          "customers" DatabaseServer.customers_data)
          "products" DatabaseServer.products_data)
          "orders" DatabaseServer.orders_data := rfl

/-- Structure of the store after init_sqlite_sample_data: the surviving
tables, then the freshly created and seeded sample tables — with the
internal sqlite_sequence table created right after customers (the first
AUTOINCREMENT table) whenever it did not already survive from before. -/
theorem init_sqlite_db_eq (w : DatabaseServer.DbWorld) :
    (DatabaseServer.init_sqlite_sample_data w).2.db
      = sample_survivors w.db
          ++ (if DatabaseServer.has_sqlite_sequence (sample_survivors w.db)
              then ([⟨"customers", DatabaseServer.customers_data⟩,
                     ⟨"products", DatabaseServer.products_data⟩,
                     ⟨"orders", DatabaseServer.orders_data⟩] : DatabaseServer.Db)
              else ([⟨"customers", DatabaseServer.customers_data⟩,
                     ⟨"sqlite_sequence", []⟩,
                     ⟨"products", DatabaseServer.products_data⟩,
                     ⟨"orders", DatabaseServer.orders_data⟩] : DatabaseServer.Db)) := by
  have hsurv := sample_survivors_names w.db
  have hA : DatabaseServer.insert_many (DatabaseServer.insert_many
      (DatabaseServer.insert_many [(⟨"customers", []⟩ : DatabaseServer.Table)]
        "customers" DatabaseServer.customers_data)
      "products" DatabaseServer.products_data)
      "orders" DatabaseServer.orders_data
      = [⟨"customers", DatabaseServer.customers_data⟩] := by decide
  have hS : DatabaseServer.insert_many (DatabaseServer.insert_many
      (DatabaseServer.insert_many [(⟨"sqlite_sequence", []⟩ : DatabaseServer.Table)]
        "customers" DatabaseServer.customers_data)
      "products" DatabaseServer.products_data)
      "orders" DatabaseServer.orders_data
      = [⟨"sqlite_sequence", []⟩] := by decide
  have hB : DatabaseServer.insert_many (DatabaseServer.insert_many
      (DatabaseServer.insert_many [(⟨"products", []⟩ : DatabaseServer.Table)]
        "customers" DatabaseServer.customers_data)
      "products" DatabaseServer.products_data)
      "orders" DatabaseServer.orders_data
      = [⟨"products", DatabaseServer.products_data⟩] := by decide
  have hC : DatabaseServer.insert_many (DatabaseServer.insert_many
      (DatabaseServer.insert_many [(⟨"orders", []⟩ : DatabaseServer.Table)]
        "customers" DatabaseServer.customers_data)
      "products" DatabaseServer.products_data)
      "orders" DatabaseServer.orders_data
      = [⟨"orders", DatabaseServer.orders_data⟩] := by decide
  rw [init_db_unfold]
  cases hseq : DatabaseServer.has_sqlite_sequence (sample_survivors w.db)
  · rw [create_autoinc_seq_absent (sample_survivors w.db) "customers" (by decide) hseq]
    rw [create_autoinc_seq_present _ "products" (has_seq_append_seq _)]
    rw [create_autoinc_seq_present _ "orders"
        (by rw [has_seq_append, has_seq_append_seq]; simp)]
    simp only [insert_many_append]
    rw [insert_many_skip "customers" DatabaseServer.customers_data
        (sample_survivors w.db) (fun t ht => (hsurv t ht).1)]
    rw [insert_many_skip "products" DatabaseServer.products_data
        (sample_survivors w.db) (fun t ht => (hsurv t ht).2.1)]
    rw [insert_many_skip "orders" DatabaseServer.orders_data
        (sample_survivors w.db) (fun t ht => (hsurv t ht).2.2)]
    rw [hA, hS, hB, hC]
    simp [List.append_assoc]
  · rw [create_autoinc_seq_present (sample_survivors w.db) "customers" hseq]
    rw [create_autoinc_seq_present _ "products" (by rw [has_seq_append, hseq]; rfl)]
    rw [create_autoinc_seq_present _ "orders"
        (by rw [has_seq_append, has_seq_append, hseq]; rfl)]
    simp only [insert_many_append]
    rw [insert_many_skip "customers" DatabaseServer.customers_data
        (sample_survivors w.db) (fun t ht => (hsurv t ht).1)]
    rw [insert_many_skip "products" DatabaseServer.products_data
        (sample_survivors w.db) (fun t ht => (hsurv t ht).2.1)]
    rw [insert_many_skip "orders" DatabaseServer.orders_data
        (sample_survivors w.db) (fun t ht => (hsurv t ht).2.2)]
    rw [hA, hB, hC]
    simp [List.append_assoc]

/-- After initialisation, the first table named customers in the store is
the freshly seeded one, whatever the store held before and whether or not
sqlite_sequence already existed. -/
theorem find?_customers_init (l : DatabaseServer.Db) :
    (sample_survivors l
        ++ (if DatabaseServer.has_sqlite_sequence (sample_survivors l)
            then ([⟨"customers", DatabaseServer.customers_data⟩,
                   ⟨"products", DatabaseServer.products_data⟩,
                   ⟨"orders", DatabaseServer.orders_data⟩] : DatabaseServer.Db)
            else ([⟨"customers", DatabaseServer.customers_data⟩,
                   ⟨"sqlite_sequence", []⟩,
                   ⟨"products", DatabaseServer.products_data⟩,
                   ⟨"orders", DatabaseServer.orders_data⟩] : DatabaseServer.Db))).find?
      (fun t => t.name == "customers")
      = some ⟨"customers", DatabaseServer.customers_data⟩ := by
  rw [List.find?_append]
  have hnone : (sample_survivors l).find? (fun t => t.name == "customers") = none := by
    rw [List.find?_eq_none]
    intro x hx
    simp [(sample_survivors_names l x hx).1]
  rw [hnone]
  cases DatabaseServer.has_sqlite_sequence (sample_survivors l) <;> rfl

/-- Evaluation of execute_sqlite_query on a read statement whose engine
reply is known. -/
theorem exec_sqlite_read_eval (eng : DatabaseServer.SqliteEngine)
    (w' : DatabaseServer.DbWorld) (q : String) (ps : List String)
    (cols : List String) (rows : List (List String))
    (hq : DatabaseServer.read_stmt_sqlite q = true)
    (hexc : (eng w'.db q ps).exc = none)
    (hcols : (eng w'.db q ps).cols = cols)
    (hrows : (eng w'.db q ps).rows = rows)
    (hne : rows.isEmpty = false) :
    (DatabaseServer.execute_sqlite_query eng w' q ps).1
      = DatabaseServer.rows_text cols rows := by
  unfold DatabaseServer.execute_sqlite_query
  simp only [hexc, hq, if_true, hcols, hrows, hne, Bool.false_eq_true, if_false]

/-- Counterexample to C4 as stated: from the fresh store, init_sample_data
followed immediately by list_tables reports four table names, not three —
the three sample tables are created with `id INTEGER PRIMARY KEY
AUTOINCREMENT` columns, so SQLite also creates its internal sqlite_sequence
table, and the `sqlite_master` listing issued by list_tables includes it. -/
theorem c4_counterexample :
    (DatabaseServer.init_sample_data world0 "sqlite").1
      = "SQLite sample data initialized successfully at databases/sample.db" ∧
    (DatabaseServer.init_sample_data world0 "sqlite").2.db.map (fun t => t.name)
      = ["customers", "sqlite_sequence", "products", "orders"] ∧
    (DatabaseServer.list_tables DatabaseServer.ref_sqlite_engine witness_mysql
        (DatabaseServer.init_sample_data world0 "sqlite").2 "sqlite").1
      = "Columns: name\n\ncustomers\nsqlite_sequence\nproducts\norders\n" ∧
    (DatabaseServer.list_tables DatabaseServer.ref_sqlite_engine witness_mysql
        (DatabaseServer.init_sample_data world0 "sqlite").2 "sqlite").1
      ≠ "Columns: name\n\ncustomers\nproducts\norders\n" := by
  refine ⟨rfl, by decide, by decide, by decide⟩

/-- C4 (amended): after a successful init_sample_data on the sqlite backend
of a store holding no tables other than the three sample tables (in
particular the fresh, empty store), list_tables on sqlite reports exactly
four names — the three sample tables plus the internal sqlite_sequence table
that SQLite creates for their AUTOINCREMENT columns — in creation order
customers, sqlite_sequence, products, orders; no other names. -/
theorem c4_amended_init_then_list_tables (my : DatabaseServer.MysqlLib)
    (w : DatabaseServer.DbWorld)
    (h : ∀ t ∈ w.db, t.name = "customers" ∨ t.name = "products" ∨ t.name = "orders") :
    (DatabaseServer.init_sample_data w "sqlite").1
      = "SQLite sample data initialized successfully at databases/sample.db" ∧
    (DatabaseServer.init_sample_data w "sqlite").2.db.map (fun t => t.name)
      = ["customers", "sqlite_sequence", "products", "orders"] ∧
    (DatabaseServer.list_tables DatabaseServer.ref_sqlite_engine my
        (DatabaseServer.init_sample_data w "sqlite").2 "sqlite").1
      = "Columns: name\n\ncustomers\nsqlite_sequence\nproducts\norders\n" := by
  have hnil : sample_survivors w.db = [] := by
    unfold sample_survivors
    rw [List.filter_eq_nil_iff]
    intro a ha
    simp only [List.mem_filter] at ha
    obtain ⟨⟨haw, ho⟩, hc⟩ := ha
    rcases h a haw with h' | h' | h'
    · exact absurd h' (bne_iff_ne.mp hc)
    · intro hx
      exact (bne_iff_ne.mp hx) h'
    · exact absurd h' (bne_iff_ne.mp ho)
  have hdb : (DatabaseServer.init_sample_data w "sqlite").2.db
      = ([⟨"customers", DatabaseServer.customers_data⟩,
          ⟨"sqlite_sequence", []⟩,
          ⟨"products", DatabaseServer.products_data⟩,
          ⟨"orders", DatabaseServer.orders_data⟩] : DatabaseServer.Db) := by
    show (DatabaseServer.init_sqlite_sample_data w).2.db = _
    rw [init_sqlite_db_eq, hnil]
    rfl
  refine ⟨rfl, ?_, ?_⟩
  · rw [hdb]
    rfl
  · have h3 := exec_sqlite_read_eval DatabaseServer.ref_sqlite_engine
      (DatabaseServer.init_sample_data w "sqlite").2
      "SELECT name FROM sqlite_master WHERE type=\x27table\x27;" []
      ["name"] [["customers"], ["sqlite_sequence"], ["products"], ["orders"]]
      (by decide) (by rw [hdb]; decide) (by rw [hdb]; decide) (by rw [hdb]; decide)
      (by decide)
    have hlist : (DatabaseServer.list_tables DatabaseServer.ref_sqlite_engine my
        (DatabaseServer.init_sample_data w "sqlite").2 "sqlite").1
        = (DatabaseServer.execute_sqlite_query DatabaseServer.ref_sqlite_engine
          (DatabaseServer.init_sample_data w "sqlite").2
          "SELECT name FROM sqlite_master WHERE type=\x27table\x27;" []).1 := by
      unfold DatabaseServer.list_tables
      rw [if_pos (by decide)]
    rw [hlist, h3]
    decide

/-- Witness for the amended C4 from the fresh empty store. -/
theorem c4_amended_witness :
    (DatabaseServer.init_sample_data world0 "sqlite").1
      = "SQLite sample data initialized successfully at databases/sample.db" ∧
    (DatabaseServer.init_sample_data world0 "sqlite").2.db.map (fun t => t.name)
      = ["customers", "sqlite_sequence", "products", "orders"] ∧
    (DatabaseServer.list_tables DatabaseServer.ref_sqlite_engine witness_mysql
        (DatabaseServer.init_sample_data world0 "sqlite").2 "sqlite").1
      = "Columns: name\n\ncustomers\nsqlite_sequence\nproducts\norders\n" :=
  c4_amended_init_then_list_tables witness_mysql world0 (by simp [world0])

/-- C5: init_sample_data on the sqlite backend is idempotent — from any
starting store, calling it twice reports success both times, the store then
holds exactly the five seeded customer rows, and the COUNT query over the
customers table returns the single data row 5. -/
theorem c5_init_idempotent_five_customers (my : DatabaseServer.MysqlLib)
    (w : DatabaseServer.DbWorld) :
    (DatabaseServer.init_sample_data w "sqlite").1
      = "SQLite sample data initialized successfully at databases/sample.db" ∧
    (DatabaseServer.init_sample_data
        (DatabaseServer.init_sample_data w "sqlite").2 "sqlite").1
      = "SQLite sample data initialized successfully at databases/sample.db" ∧
    ((DatabaseServer.init_sample_data
        (DatabaseServer.init_sample_data w "sqlite").2 "sqlite").2).db.find?
        (fun t => t.name == "customers")
      = some ⟨"customers", DatabaseServer.customers_data⟩ ∧
    DatabaseServer.customers_data.length = 5 ∧
    (DatabaseServer.execute_query DatabaseServer.ref_sqlite_engine my
        (DatabaseServer.init_sample_data
          (DatabaseServer.init_sample_data w "sqlite").2 "sqlite").2
        "SELECT COUNT(*) FROM customers" "sqlite" []).1
      = "Columns: COUNT(*)\n\n5\n" := by
  have hdb2 : (DatabaseServer.init_sample_data
      (DatabaseServer.init_sample_data w "sqlite").2 "sqlite").2.db
      = sample_survivors ((DatabaseServer.init_sample_data w "sqlite").2).db
          ++ (if DatabaseServer.has_sqlite_sequence
                (sample_survivors ((DatabaseServer.init_sample_data w "sqlite").2).db)
              then ([⟨"customers", DatabaseServer.customers_data⟩,
                     ⟨"products", DatabaseServer.products_data⟩,
                     ⟨"orders", DatabaseServer.orders_data⟩] : DatabaseServer.Db)
              else ([⟨"customers", DatabaseServer.customers_data⟩,
                     ⟨"sqlite_sequence", []⟩,
                     ⟨"products", DatabaseServer.products_data⟩,
                     ⟨"orders", DatabaseServer.orders_data⟩] : DatabaseServer.Db)) := by
    show (DatabaseServer.init_sqlite_sample_data
        (DatabaseServer.init_sample_data w "sqlite").2).2.db = _
    exact init_sqlite_db_eq (DatabaseServer.init_sample_data w "sqlite").2
  have hf : (DatabaseServer.init_sample_data
      (DatabaseServer.init_sample_data w "sqlite").2 "sqlite").2.db.find?
      (fun t => t.name == "customers")
      = some ⟨"customers", DatabaseServer.customers_data⟩ := by
    rw [hdb2]
    exact find?_customers_init _
  have hexc : (DatabaseServer.ref_sqlite_engine
      (DatabaseServer.init_sample_data
        (DatabaseServer.init_sample_data w "sqlite").2 "sqlite").2.db
      "SELECT COUNT(*) FROM customers" []).exc = none := by
    unfold DatabaseServer.ref_sqlite_engine
    rw [if_neg (by decide), if_pos (by decide), hf]
  have hcols : (DatabaseServer.ref_sqlite_engine
      (DatabaseServer.init_sample_data
        (DatabaseServer.init_sample_data w "sqlite").2 "sqlite").2.db
      "SELECT COUNT(*) FROM customers" []).cols = ["COUNT(*)"] := by
    unfold DatabaseServer.ref_sqlite_engine
    rw [if_neg (by decide), if_pos (by decide), hf]
  have hrows : (DatabaseServer.ref_sqlite_engine
      (DatabaseServer.init_sample_data
        (DatabaseServer.init_sample_data w "sqlite").2 "sqlite").2.db
      "SELECT COUNT(*) FROM customers" []).rows = [["5"]] := by
    unfold DatabaseServer.ref_sqlite_engine
    rw [if_neg (by decide), if_pos (by decide), hf]
    rfl
  have h5 := exec_sqlite_read_eval DatabaseServer.ref_sqlite_engine
    (DatabaseServer.init_sample_data
      (DatabaseServer.init_sample_data w "sqlite").2 "sqlite").2
    "SELECT COUNT(*) FROM customers" [] ["COUNT(*)"] [["5"]]
    (by decide) hexc hcols hrows (by decide)
  have hq : (DatabaseServer.execute_query DatabaseServer.ref_sqlite_engine my
      (DatabaseServer.init_sample_data
        (DatabaseServer.init_sample_data w "sqlite").2 "sqlite").2
      "SELECT COUNT(*) FROM customers" "sqlite" []).1
      = (DatabaseServer.execute_sqlite_query DatabaseServer.ref_sqlite_engine
        (DatabaseServer.init_sample_data
          (DatabaseServer.init_sample_data w "sqlite").2 "sqlite").2
        "SELECT COUNT(*) FROM customers" []).1 := by
    unfold DatabaseServer.execute_query
    rw [if_neg (by decide), if_pos (by decide)]
  refine ⟨rfl, rfl, hf, by decide, ?_⟩
  rw [hq, h5]
  decide
